import Mathlib

/-!
Shallow embedding of the esoteric-vm core (src/src/machine/mod.rs,
src/src/machine/stack/mod.rs, src/src/utils/constant_size_string.rs,
src/src/machine/omega.rs, src/src/utils/primes.rs).

Machine integers are modelled as `Nat` (unsigned) or `Int` (signed) with
explicit `% 2^w` where the Rust code wraps.  Fallible operations (Rust
panics / undefined behaviour) are modelled with `Except Panic`.  Host I/O
(terminal reads/writes, debug printing) is modelled as a list of `Effect`
values returned next to the machine state; blocking host reads take their
result from an explicit `IOEnv`, and host write errors are not modelled
(the success path of the host is taken).  `f64` arithmetic is kept
abstract: `reg_f` holds the 64-bit pattern as a `Nat` and the five float
instructions go through an explicit `FloatOps` parameter.
-/

namespace EsotericVm

/-- Ways the Rust code can abort at runtime (index panic, division by
zero, slice-range panic, or undefined behaviour from a transmute). -/
inductive Panic where
  | indexOutOfRange
  | divByZero
  | sliceOutOfRange
  | undefinedBehavior
  deriving DecidableEq, Repr

/-- Length of the machine's memory.  The source allocates
`Box<[u8; 0xFFFF]>`, i.e. 65535 bytes (`0xFFFF`), not 65536. -/
def MEMLEN : Nat := 0xFFFF

/-- Memory is the flat byte region, represented as a total function;
only indices below `MEMLEN` are valid, see `readMem`/`writeMem`. -/
def Mem : Type := Nat → Nat

/-- `memory[i]`: Rust slice indexing, panicking out of range. -/
def readMem (mem : Mem) (i : Nat) : Except Panic Nat :=
  if i < MEMLEN then .ok (mem i) else .error .indexOutOfRange

/-- `memory[i] = v`: Rust slice index assignment, panicking out of range. -/
def writeMem (mem : Mem) (i v : Nat) : Except Panic Mem :=
  if i < MEMLEN then .ok (fun j => if j = i then v else mem j)
  else .error .indexOutOfRange

/-- `u16` wrapping increment by `k` (`u16::wrapping_add`). -/
def wrap16 (n : Nat) : Nat := n % 65536

/-- Reinterpret a `u16` bit pattern as an `i16` (the source's
`safe_transmute::<u16, i16, 2>`). -/
def toI16 (v : Nat) : Int := if v < 32768 then (v : Int) else (v : Int) - 65536

/-- Reinterpret an `i16` as a `u16` bit pattern
(`safe_transmute::<i16, u16, 2>`). -/
def toU16 (v : Int) : Nat := (v % 65536).toNat

/-- Reinterpret a `u8` bit pattern as an `i8` (`safe_transmute::<u8, i8, 1>`). -/
def toI8 (v : Nat) : Int := if v < 128 then (v : Int) else (v : Int) - 256

/-- Reinterpret an `i8` as a `u8` bit pattern (`safe_transmute::<i8, u8, 1>`). -/
def toU8 (v : Int) : Nat := (v % 256).toNat

/-- Reinterpret a `u32` bit pattern as an `i32` (`safe_transmute::<u32, i32, 4>`). -/
def toI32 (v : Nat) : Int := if v < 2147483648 then (v : Int) else (v : Int) - 4294967296

/-- Reinterpret an `i32` as a `u32` bit pattern (used for `i32::to_be_bytes`). -/
def toU32 (v : Int) : Nat := (v % 4294967296).toNat

/-- `u16::to_be_bytes`. -/
def be2 (n : Nat) : List Nat := [n / 256 % 256, n % 256]

/-- `u32::to_be_bytes`. -/
def be4 (n : Nat) : List Nat :=
  [n / 16777216 % 256, n / 65536 % 256, n / 256 % 256, n % 256]

/-- `u64::to_be_bytes`. -/
def be8 (n : Nat) : List Nat :=
  [n / 72057594037927936 % 256, n / 281474976710656 % 256,
   n / 1099511627776 % 256, n / 4294967296 % 256,
   n / 16777216 % 256, n / 65536 % 256, n / 256 % 256, n % 256]

/-! ## Bounded stack (src/src/machine/stack/mod.rs) -/

/-- Overflow/underflow report of the bounded stack
(`stack::stackoverflow::StackOverflow`). -/
inductive StackOverflow where
  | overflow
  deriving DecidableEq, Repr

/-- The bounded stack: a byte vector (`vec`, index 0 is the bottom,
pushes/pops happen at the back) plus its fixed capacity
(`Vec::with_capacity` at construction). -/
structure Stack where
  vec : List Nat
  cap : Nat
  deriving DecidableEq, Repr

namespace Stack

/-- `Stack::default()`: empty vector with capacity 4095. -/
def default : Stack := ⟨[], 4095⟩

/-- `Stack::total_space`. -/
def total_space (s : Stack) : Nat := s.cap

/-- `Stack::used_space`. -/
def used_space (s : Stack) : Nat := s.vec.length

/-- `Stack::space_left` (`total_space - used_space`, `usize` saturation is
irrelevant because `used_space ≤ total_space` whenever the stack was built
by pushes). -/
def space_left (s : Stack) : Nat := s.total_space - s.used_space

/-- `Stack::push_byte`: fails without mutation when no space is left. -/
def push_byte (s : Stack) (byte : Nat) : Except StackOverflow Stack :=
  if s.space_left = 0 then .error .overflow
  else .ok ⟨s.vec ++ [byte], s.cap⟩

/-- `Stack::pop_byte`: `Vec::pop`, returning the popped byte (or `none`)
and the possibly shrunk stack. -/
def pop_byte (s : Stack) : Option Nat × Stack :=
  match s.vec.getLast? with
  | none => (none, s)
  | some b => (some b, ⟨s.vec.dropLast, s.cap⟩)

/-- `Stack::alloc`: pushes `bytes` zero bytes, all-or-nothing. -/
def alloc (s : Stack) (bytes : Nat) : Except StackOverflow Stack :=
  if bytes > s.space_left then .error .overflow
  else .ok ⟨s.vec ++ List.replicate bytes 0, s.cap⟩

/-- `Stack::dealloc`: drops the top `bytes` bytes, all-or-nothing. -/
def dealloc (s : Stack) (bytes : Nat) : Except StackOverflow Stack :=
  if bytes > s.used_space then .error .overflow
  else .ok ⟨s.vec.take (s.vec.length - bytes), s.cap⟩

/-- `Stack::push_bytes`: `alloc` then overwrite the fresh area, so it is
all-or-nothing. -/
def push_bytes (s : Stack) (bytes : List Nat) : Except StackOverflow Stack :=
  if bytes.length > s.space_left then .error .overflow
  else .ok ⟨s.vec ++ bytes, s.cap⟩

/-- `Stack::pop_u16`: pops the low byte, then the high byte; each `?`
keeps the bytes already popped (non-atomic on underflow). -/
def pop_u16 (s : Stack) : Option Nat × Stack :=
  match s.pop_byte with
  | (none, s1) => (none, s1)
  | (some b1, s1) =>
    match s1.pop_byte with
    | (none, s2) => (none, s2)
    | (some b0, s2) => (some (b0 * 256 + b1), s2)

/-- `Stack::pop_u32`: four single-byte pops, least significant first. -/
def pop_u32 (s : Stack) : Option Nat × Stack :=
  match s.pop_u16 with
  | (none, s1) => (none, s1)
  | (some lo, s1) =>
    match s1.pop_u16 with
    | (none, s2) => (none, s2)
    | (some hi, s2) => (some (hi * 65536 + lo), s2)

/-- `Stack::pop_u64`: eight single-byte pops, least significant first. -/
def pop_u64 (s : Stack) : Option Nat × Stack :=
  match s.pop_u32 with
  | (none, s1) => (none, s1)
  | (some lo, s1) =>
    match s1.pop_u32 with
    | (none, s2) => (none, s2)
    | (some hi, s2) => (some (hi * 4294967296 + lo), s2)

end Stack

/-! ## Bounded string register (src/src/utils/constant_size_string.rs) -/

/-- `constant_size_string::Overflow`. -/
inductive Overflow where
  | overflow
  deriving DecidableEq, Repr

/-- `ConstantSizeString`: byte vector with a fixed capacity. -/
structure ConstantSizeString where
  vec : List Nat
  cap : Nat
  deriving DecidableEq, Repr

namespace ConstantSizeString

/-- `ConstantSizeString::push_byte`. -/
def push_byte (s : ConstantSizeString) (byte : Nat) :
    Except Overflow ConstantSizeString :=
  if s.vec.length < s.cap then .ok ⟨s.vec ++ [byte], s.cap⟩
  else .error .overflow

/-- `ConstantSizeString::push_bytes`: all-or-nothing. -/
def push_bytes (s : ConstantSizeString) (bytes : List Nat) :
    Except Overflow ConstantSizeString :=
  if s.vec.length + bytes.length > s.cap then .error .overflow
  else .ok ⟨s.vec ++ bytes, s.cap⟩

/-- `ConstantSizeString::pop_byte`. -/
def pop_byte (s : ConstantSizeString) : Option Nat × ConstantSizeString :=
  match s.vec.getLast? with
  | none => (none, s)
  | some b => (some b, ⟨s.vec.dropLast, s.cap⟩)

/-- `ConstantSizeString::clear`. -/
def clear (s : ConstantSizeString) : ConstantSizeString := ⟨[], s.cap⟩

/-- `ConstantSizeString::len`. -/
def len (s : ConstantSizeString) : Nat := s.vec.length

/-- `ConstantSizeString::get`. -/
def get (s : ConstantSizeString) (index : Nat) : Option Nat :=
  s.vec.get? index

/-- `ConstantSizeString::set`: fails (with `Overflow`) when `index` is not
below the current length. -/
def set (s : ConstantSizeString) (index value : Nat) :
    Except Overflow ConstantSizeString :=
  if index < s.vec.length then .ok ⟨s.vec.set index value, s.cap⟩
  else .error .overflow

end ConstantSizeString

/-! ## The Ω register (src/src/machine/omega.rs) -/

/-- The `illusion_of_choice` type `Option<Option<Option<Option<()>>>>`. -/
abbrev Choice : Type := Option (Option (Option (Option Unit)))

/-- Byte representation of `Choice` used by the `transmute`s in
encode/decode: rustc's niche layout gives `Some(...(x))` the representation
of `x` and each outer `None` the next free byte value, so the five values
map to 0,1,2,3,4. -/
def choiceToByte (c : Choice) : Nat :=
  match c with
  | some (some (some (some ()))) => 0
  | some (some (some none)) => 1
  | some (some none) => 2
  | some none => 3
  | none => 4

/-- Decode side of the `Choice` transmute: bytes 0–4 are the five valid
patterns, anything else is undefined behaviour. -/
def choiceOfByte (b : Nat) : Except Panic Choice :=
  match b with
  | 0 => .ok (some (some (some (some ()))))
  | 1 => .ok (some (some (some none)))
  | 2 => .ok (some (some none))
  | 3 => .ok (some none)
  | 4 => .ok none
  | _ => .error .undefinedBehavior

/-- The bytes printed for each `Choice` by `Ω::display_illusion_of_choice`
(the ASCII of the five literals; we only record which of the five strings
is chosen, as its first byte, since the claims never inspect the text). -/
def choiceShownBytes (c : Choice) : List Nat := [choiceToByte c]

/-- The `Ω` register (`machine/omega.rs`). -/
structure Omega where
  illusion_of_choice : Choice
  polymorphic_desires : Nat
  feeling_of_impending_doom : Bool
  is_sentient : Bool
  should_make_infinite_paperclips : Bool
  deriving DecidableEq, Repr

/-- `Ω::ZEROED`. -/
def Omega.ZEROED : Omega := ⟨none, 0, false, false, false⟩

/-! ## Instructions (src/src/instruction.rs)

Operands are `Nat` for `u8`/`u16` and `Int` for `i8`; the 37-slot
immediate of `Ldirr` is a `List Int` (length 37 for representable
instructions).  `u8`/`u16` field widths are invariants of decoding, not of
the type, mirroring the claims' "representable" side conditions.
The Rust names use the letters ř and ß, which Lean's lexer rejects;
they are transliterated throughout as `rr` and `ss` (e.g. `Clř` ↦ `Clrr`,
`reg_ß` ↦ `reg_ss`). -/
inductive Instruction where
  | Nop
  | Ldar (data : Nat)
  | Sba
  | Clrr
  | Dumprr (data : Nat)
  | Movarr (data : Nat)
  | Setrr (data0 : Nat) (data1 : Nat)
  | Setirr (data0 : Nat) (data1 : Int)
  | Ldrr (data : Nat)
  | Ldirr (arr : List Int)
  | Clss
  | Dumpss (data : Nat)
  | Writess (data0 : Nat) (data1 : Nat)
  | Movass (data : Nat)
  | Setss (data0 : Nat) (data1 : Nat)
  | Setiss (data0 : Nat) (data1 : Nat)
  | Ldss (data : Nat)
  | Pushss
  | Popss
  | Lenssa
  | Ldidp (data : Nat)
  | ΩChoiceSet (data : Choice)
  | ΩChoiceGetA
  | ΩGainAPolymorphicDesires
  | ΩLoseAPolymorphicDesires
  | ΩPushPolymorphicDesires
  | ΩTheEndIsNear
  | ΩSkipToTheChase
  | ΩSetSentience (enable : Bool)
  | ΩSetPaperclipProduction (enable : Bool)
  | AddBL
  | SubBL
  | MulBL
  | DivBL
  | ModBL
  | NotL
  | AndBL
  | OrBL
  | XorBL
  | CmpLB
  | TgFlag
  | ClFlag
  | AddF (data : Nat)
  | SubF (data : Nat)
  | MulF (data : Nat)
  | DivF (data : Nat)
  | ModF (data : Nat)
  | StackAlloc (amount : Nat)
  | StackDealloc (amount : Nat)
  | Push (data : Nat)
  | Pushi (data : Nat)
  | Pop (data : Nat)
  | Popa
  | Pusha
  | Popb
  | Pushb
  | PopL
  | PushL
  | Popf
  | Pushf
  | Popch
  | Pushch
  | Popnum
  | Pushnum
  | Popep
  | Zpopep
  | Ppopep
  | Npopep
  | Fpopep
  | Zapopep
  | Dpopep
  | GetChar
  | GetLine
  | WriteChar
  | WriteLiness
  | WriteLine (data : Nat)
  | ToggleDebug
  | DebugMachineState
  | DebugMachineStateCompact
  | DebugMemoryRegion (data0 : Nat) (data1 : Nat)
  | DebugStackRegion (data0 : Nat) (data1 : Nat)
  | ShowChoice

/-- The opcode of each instruction kind (`IK::X as u8`): `Instruction` is
`repr(u8)` with default discriminants, so opcodes are the declaration
order 0,1,2,… of src/src/instruction.rs, which `InstructionKind::from_repr`
inverts. -/
def Instruction.opcode (x : Instruction) : Nat :=
  match x with
  | .Nop => 0
  | .Ldar _ => 1
  | .Sba => 2
  | .Clrr => 3
  | .Dumprr _ => 4
  | .Movarr _ => 5
  | .Setrr _ _ => 6
  | .Setirr _ _ => 7
  | .Ldrr _ => 8
  | .Ldirr _ => 9
  | .Clss => 10
  | .Dumpss _ => 11
  | .Writess _ _ => 12
  | .Movass _ => 13
  | .Setss _ _ => 14
  | .Setiss _ _ => 15
  | .Ldss _ => 16
  | .Pushss => 17
  | .Popss => 18
  | .Lenssa => 19
  | .Ldidp _ => 20
  | .ΩChoiceSet _ => 21
  | .ΩChoiceGetA => 22
  | .ΩGainAPolymorphicDesires => 23
  | .ΩLoseAPolymorphicDesires => 24
  | .ΩPushPolymorphicDesires => 25
  | .ΩTheEndIsNear => 26
  | .ΩSkipToTheChase => 27
  | .ΩSetSentience _ => 28
  | .ΩSetPaperclipProduction _ => 29
  | .AddBL => 30
  | .SubBL => 31
  | .MulBL => 32
  | .DivBL => 33
  | .ModBL => 34
  | .NotL => 35
  | .AndBL => 36
  | .OrBL => 37
  | .XorBL => 38
  | .CmpLB => 39
  | .TgFlag => 40
  | .ClFlag => 41
  | .AddF _ => 42
  | .SubF _ => 43
  | .MulF _ => 44
  | .DivF _ => 45
  | .ModF _ => 46
  | .StackAlloc _ => 47
  | .StackDealloc _ => 48
  | .Push _ => 49
  | .Pushi _ => 50
  | .Pop _ => 51
  | .Popa => 52
  | .Pusha => 53
  | .Popb => 54
  | .Pushb => 55
  | .PopL => 56
  | .PushL => 57
  | .Popf => 58
  | .Pushf => 59
  | .Popch => 60
  | .Pushch => 61
  | .Popnum => 62
  | .Pushnum => 63
  | .Popep => 64
  | .Zpopep => 65
  | .Ppopep => 66
  | .Npopep => 67
  | .Fpopep => 68
  | .Zapopep => 69
  | .Dpopep => 70
  | .GetChar => 71
  | .GetLine => 72
  | .WriteChar => 73
  | .WriteLiness => 74
  | .WriteLine _ => 75
  | .ToggleDebug => 76
  | .DebugMachineState => 77
  | .DebugMachineStateCompact => 78
  | .DebugMemoryRegion _ _ => 79
  | .DebugStackRegion _ _ => 80
  | .ShowChoice => 81

/-! ## Machine state (src/src/machine/mod.rs) -/

/-- The machine.  Field names follow the source; `reg_f` holds the `f64`
bit pattern as a `u64`, `reg_ch` the `char` scalar value as a `u32`,
`reg_rr` the 37 `i8` slots as a list. -/
structure Machine where
  reg_a : Nat
  reg_b : Int
  reg_L : Nat
  reg_f : Nat
  reg_ch : Nat
  reg_rr : List Int
  reg_ss : ConstantSizeString
  reg_Ω : Omega
  num_reg : Int
  reg_ep : Nat
  reg_dp : Nat
  flag : Bool
  debug_mode : Bool
  halted : Bool
  memory : Mem
  stack : Stack

/-- `Machine::default()` (zeroed; `debug_mode` is `cfg!(debug_assertions)`,
taken here for the release build, i.e. `false`). -/
def Machine.default : Machine where
  reg_a := 0
  reg_b := 0
  reg_L := 0
  reg_f := 0
  reg_ch := 0
  reg_rr := List.replicate 37 0
  reg_ss := ⟨[], 255⟩
  reg_Ω := Omega.ZEROED
  num_reg := 0
  reg_ep := 0
  reg_dp := 0
  flag := false
  debug_mode := false
  halted := false
  memory := fun _ => 0
  stack := Stack.default

namespace Machine

/-- `Machine::fetch_byte`: read at `reg_ep`, then `reg_ep += 1` wrapping. -/
def fetch_byte (m : Machine) : Except Panic (Nat × Machine) := do
  let ret ← readMem m.memory m.reg_ep
  .ok (ret, { m with reg_ep := wrap16 (m.reg_ep + 1) })

/-- `Machine::fetch_2_bytes`: big-endian 16-bit read at `reg_ep`;
`reg_ep` advances by 2 wrapping, but the two memory indices are computed
with `usize` additions (no 16-bit wrap). -/
def fetch_2_bytes (m : Machine) : Except Panic (Nat × Machine) := do
  let b0 ← readMem m.memory m.reg_ep
  let b1 ← readMem m.memory (m.reg_ep + 1)
  .ok (b0 * 256 + b1, { m with reg_ep := wrap16 (m.reg_ep + 2) })

/-- `Machine::fetch_4_bytes` (same index convention as `fetch_2_bytes`). -/
def fetch_4_bytes (m : Machine) : Except Panic (Nat × Machine) := do
  let b0 ← readMem m.memory m.reg_ep
  let b1 ← readMem m.memory (m.reg_ep + 1)
  let b2 ← readMem m.memory (m.reg_ep + 2)
  let b3 ← readMem m.memory (m.reg_ep + 3)
  .ok (((b0 * 256 + b1) * 256 + b2) * 256 + b3,
       { m with reg_ep := wrap16 (m.reg_ep + 4) })

/-- The 37-iteration loop in the `Ldirr` arm of `fetch_instruction`:
fetch `n` bytes one at a time (each transmuted `u8 → i8`). -/
def fetch_i8_list (m : Machine) : Nat → Except Panic (List Int × Machine)
  | 0 => .ok ([], m)
  | n + 1 => do
    let (b, m1) ← m.fetch_byte
    let (rest, m2) ← fetch_i8_list m1 n
    .ok (toI8 b :: rest, m2)

end Machine

/-! ## Dot-pointer allow-list (src/src/utils/primes.rs) -/

/-- `is_fib_prime_or_semiprime_u16`: the fixed allow-list of dot-pointer
targets (Fibonacci numbers that are prime or semiprime). -/
def is_fib_prime_or_semiprime_u16 (n : Nat) : Bool :=
  n = 1 || n = 2 || n = 3 || n = 5 || n = 13 || n = 21 || n = 34 ||
  n = 55 || n = 89 || n = 233 || n = 377 || n = 1597 || n = 4181 ||
  n = 17711 || n = 28657

/-! ## Host interaction model

`execute_instruction` performs terminal I/O and debug printing.  The
embedding records each external side effect as an `Effect`; blocking
reads take their value from an `IOEnv`.  Host errors (raw-mode toggles,
write failures, stdin failures) are not modelled: the host is assumed to
co-operate, which is the branch every claim is about. -/

/-- External side effects of `execute_instruction`, in order. -/
inductive Effect where
  /-- `crossterm::terminal::enable_raw_mode` (GetChar). -/
  | enableRawMode
  /-- `crossterm::terminal::disable_raw_mode` (GetChar). -/
  | disableRawMode
  /-- the blocking `event::read` key loop of GetChar. -/
  | readKey
  /-- `stdin().take(255).read_to_string` (GetLine). -/
  | readLine
  /-- `print!("{}: ", num_reg)` from `num_debug`. -/
  | printNum (n : Int)
  /-- `stdout().write_all` of the 4-byte buffer (WriteChar). -/
  | writeCharBuf (bytes : List Nat)
  /-- `print!` of a byte string (WriteLiness / WriteLine). -/
  | writeStr (bytes : List Nat)
  /-- `eprintln!("No, I refuse to lose sentience")` (ΩSetSentience false). -/
  | eprintRefuse
  /-- `print!("{self:#?}")` (DebugMachineState), with the printed state. -/
  | printState (m : Machine)
  /-- `print!("{self:?}")` (DebugMachineStateCompact). -/
  | printStateCompact (m : Machine)
  /-- `print!("{:?}", &memory[a..b])` (DebugMemoryRegion). -/
  | printMemRegion (bytes : List Nat)
  /-- `print!("{:?}", &stack.vec[a..b])` (DebugStackRegion). -/
  | printStackRegion (bytes : List Nat)
  /-- `display_illusion_of_choice` output (ShowChoice). -/
  | showChoice (bytes : List Nat)

/-- Values produced by the host's blocking reads. -/
structure IOEnv where
  /-- the key character delivered to the GetChar loop (a scalar value). -/
  key : Nat

/-- The five `f64` operations used by AddF…ModF, as functions on 64-bit
patterns; kept abstract because the claims never depend on float values. -/
structure FloatOps where
  fadd : Nat → Nat → Nat
  fsub : Nat → Nat → Nat
  fmul : Nat → Nat → Nat
  fdiv : Nat → Nat → Nat
  fmod : Nat → Nat → Nat

/-- UTF-8 encoding of a scalar value (`char::encode_utf8`). -/
def utf8Encode (c : Nat) : List Nat :=
  if c < 0x80 then [c]
  else if c < 0x800 then [0xC0 + c / 64, 0x80 + c % 64]
  else if c < 0x10000 then
    [0xE0 + c / 4096, 0x80 + c / 64 % 64, 0x80 + c % 64]
  else
    [0xF0 + c / 262144, 0x80 + c / 4096 % 64, 0x80 + c / 64 % 64, 0x80 + c % 64]

/-- The 4-byte buffer written by WriteChar: `[0,0,0,0]` overwritten by
`encode_utf8` from the front, then written out whole. -/
def writeCharBuffer (c : Nat) : List Nat :=
  utf8Encode c ++ List.replicate (4 - (utf8Encode c).length) 0

/-- `index_u64` (src/src/utils/multi_index.rs): big-endian 8-byte read at
`idx`, each index wrapped with `u16::wrapping_add` then bounds-checked. -/
def index_u64 (mem : Mem) (idx : Nat) : Except Panic Nat := do
  let b0 ← readMem mem idx
  let b1 ← readMem mem (wrap16 (idx + 1))
  let b2 ← readMem mem (wrap16 (idx + 2))
  let b3 ← readMem mem (wrap16 (idx + 3))
  let b4 ← readMem mem (wrap16 (idx + 4))
  let b5 ← readMem mem (wrap16 (idx + 5))
  let b6 ← readMem mem (wrap16 (idx + 6))
  let b7 ← readMem mem (wrap16 (idx + 7))
  .ok (((((((b0 * 256 + b1) * 256 + b2) * 256 + b3) * 256 + b4) * 256 + b5)
        * 256 + b6) * 256 + b7)

/-- Rust slice `s[a..b]`, panicking unless `a ≤ b ≤ s.len()`. -/
def sliceRange (s : List Nat) (a b : Nat) : Except Panic (List Nat) :=
  if a ≤ b ∧ b ≤ s.length then .ok ((s.take b).drop a)
  else .error .sliceOutOfRange

/-- The loop of the `Dumprr`/`Dumpss` arms: write the elements of `bs`
into memory at `data.wrapping_add(i)` for `i = 0, 1, …`. -/
def dumpBytesToMem (mem : Mem) (data : Nat) (bs : List Nat) :
    Except Panic Mem :=
  match bs with
  | [] => .ok mem
  | b :: rest => do
    let mem' ← writeMem mem (wrap16 data) b
    dumpBytesToMem mem' (wrap16 (data + 1)) rest

/-- The loop of the `Ldrr` arm: read 37 consecutive (u16-wrapped) bytes
from memory starting at `data`, as `i8` values. -/
def readI8sFromMem (mem : Mem) (data : Nat) : Nat → Except Panic (List Int)
  | 0 => .ok []
  | n + 1 => do
    let b ← readMem mem (wrap16 data)
    let rest ← readI8sFromMem mem (wrap16 (data + 1)) n
    .ok (toI8 b :: rest)

/-- The memory slice `memory[data .. data.saturating_add(255)]` read by
the `Ldss` arm (always in bounds: the end is capped at `0xFFFF = MEMLEN`). -/
def memSlice255 (mem : Mem) (data : Nat) : List Nat :=
  (List.range (min (data + 255) MEMLEN - data)).map (fun i => mem (data + i))

/-- `CStr::from_ptr` at `memory + data` (WriteLine): the bytes up to the
first NUL.  Running past the end of the allocation without finding a NUL
is undefined behaviour, modelled as an error. -/
def cstrBytes (mem : Mem) (data : Nat) : Except Panic (List Nat) :=
  go data (MEMLEN - data)
where
  go (i : Nat) : Nat → Except Panic (List Nat)
    | 0 => .error .undefinedBehavior
    | fuel + 1 =>
      if mem i = 0 then .ok []
      else do
        let rest ← go (i + 1) fuel
        .ok (mem i :: rest)

/-- The memory region as a list (used only by the DebugMemoryRegion
slice). -/
def memList (mem : Mem) : List Nat := (List.range MEMLEN).map mem

namespace Machine

/-- `Machine::num_debug`: prints `num_reg` when
`reg_Ω.should_make_infinite_paperclips` is set. -/
def num_debug (m : Machine) : List Effect :=
  if m.reg_Ω.should_make_infinite_paperclips then [.printNum m.num_reg] else []

/-- `Machine::execute_instruction`, returning the successor state and the
list of external side effects, or the panic the Rust code would hit.
The sentinel byte `b'.'` is 46. -/
def execute_instruction (fops : FloatOps) (env : IOEnv) (m : Machine)
    (instruction : Instruction) : Except Panic (Machine × List Effect) :=
  match instruction with
  | .Nop => .ok (m, [])

  | .Ldar data => do
    let v ← readMem m.memory data
    .ok ({ m with reg_a := v }, [])
  | .Sba =>
    .ok ({ m with reg_a :=
            if m.reg_b ≤ -1 then 255 else if m.reg_b = 0 then 0 else 1 }, [])

  | .Clrr => .ok ({ m with reg_rr := List.replicate 37 0 }, [])
  | .Dumprr data => do
    let mem' ← dumpBytesToMem m.memory data (m.reg_rr.map toU8)
    .ok ({ m with memory := mem' }, [])
  | .Movarr data =>
    match m.reg_rr.get? data with
    | some v => .ok ({ m with reg_a := toU8 v }, [])
    | none => .ok (m, [])
  | .Setrr data0 data1 =>
    match m.reg_rr.get? data0 with
    | some v => do
      let mem' ← writeMem m.memory data1 (toU8 v)
      .ok ({ m with memory := mem' }, [])
    | none => .ok (m, [])
  | .Setirr data0 data1 =>
    if data0 < m.reg_rr.length then
      .ok ({ m with reg_rr := m.reg_rr.set data0 data1 }, [])
    else .ok (m, [])
  | .Ldrr data => do
    let arr ← readI8sFromMem m.memory data 37
    .ok ({ m with reg_rr := arr }, [])
  | .Ldirr arr => .ok ({ m with reg_rr := arr }, [])

  | .Clss => .ok ({ m with reg_ss := m.reg_ss.clear }, [])
  | .Dumpss data => do
    -- the loop's `else { flag = true; return }` branch is unreachable:
    -- `get(i)` succeeds for every `i < len()`
    let mem' ← dumpBytesToMem m.memory data m.reg_ss.vec
    .ok ({ m with memory := mem' }, [])
  | .Writess data0 data1 =>
    match m.reg_ss.get data1 with
    | some v => do
      let mem' ← writeMem m.memory data0 v
      -- the second `get(data1)` returns the same byte
      .ok ({ m with memory := mem', reg_a := v }, [])
    | none => .ok ({ m with flag := true }, [])
  | .Movass data =>
    match m.reg_ss.set data m.reg_a with
    | .ok ss' => .ok ({ m with reg_ss := ss' }, [])
    | .error _ => .ok (m, [])
  | .Setss data0 data1 => do
    let v ← readMem m.memory data0
    match m.reg_ss.set data1 v with
    | .ok ss' => .ok ({ m with reg_ss := ss' }, [])
    | .error _ => .ok ({ m with flag := true }, [])
  | .Setiss data0 data1 =>
    match m.reg_ss.set data1 data0 with
    | .ok ss' => .ok ({ m with reg_ss := ss' }, [])
    | .error _ => .ok ({ m with flag := true }, [])
  | .Ldss data =>
    let ss0 := m.reg_ss.clear
    match ss0.push_bytes (memSlice255 m.memory data) with
    | .ok ss' => .ok ({ m with reg_ss := ss' }, [])
    | .error _ => .ok ({ m with reg_ss := ss0, flag := true }, [])
  | .Pushss =>
    match m.stack.pop_byte with
    | (some n, st') =>
      match m.reg_ss.push_byte n with
      | .ok ss' => .ok ({ m with stack := st', reg_ss := ss' }, [])
      | .error _ => .ok ({ m with stack := st', flag := true }, [])
    | (none, st') => .ok ({ m with stack := st', flag := true }, [])
  | .Popss =>
    match m.reg_ss.pop_byte with
    | (some n, ss') =>
      match m.stack.push_byte n with
      | .ok st' => .ok ({ m with reg_ss := ss', stack := st' }, [])
      | .error _ => .ok ({ m with reg_ss := ss', flag := true }, [])
    | (none, ss') => .ok ({ m with reg_ss := ss', flag := true }, [])
  | .Lenssa => .ok ({ m with reg_a := m.reg_ss.len % 256 }, [])

  | .Ldidp data =>
    if is_fib_prime_or_semiprime_u16 data then
      .ok ({ m with reg_dp := data }, [])
    else
      .ok ({ m with flag := false }, [])

  | .ΩChoiceSet data =>
    .ok ({ m with reg_Ω := { m.reg_Ω with illusion_of_choice := data } }, [])
  | .ΩChoiceGetA => .ok ({ m with reg_a := 0 }, [])
  | .ΩGainAPolymorphicDesires =>
    .ok ({ m with reg_Ω := { m.reg_Ω with polymorphic_desires := (min
            (m.reg_Ω.polymorphic_desires + m.reg_a) 18446744073709551615) } }, [])
  | .ΩLoseAPolymorphicDesires =>
    .ok ({ m with reg_Ω := { m.reg_Ω with polymorphic_desires := (m.reg_Ω.polymorphic_desires - m.reg_a) } }, [])
  | .ΩPushPolymorphicDesires =>
    match m.stack.push_bytes (be8 m.reg_Ω.polymorphic_desires) with
    | .ok st' => .ok ({ m with stack := st' }, [])
    | .error _ => .ok ({ m with flag := true }, [])
  | .ΩTheEndIsNear =>
    .ok ({ m with reg_Ω := { m.reg_Ω with feeling_of_impending_doom := true } }, [])
  | .ΩSkipToTheChase =>
    if m.reg_Ω.feeling_of_impending_doom then .ok ({ m with halted := true }, [])
    else .ok (m, [])
  | .ΩSetSentience enable =>
    if enable then
      .ok ({ m with reg_Ω := { m.reg_Ω with is_sentient := true } }, [])
    else
      .ok ({ m with flag := true }, [.eprintRefuse])
  | .ΩSetPaperclipProduction enable =>
    .ok ({ m with reg_Ω :=
            { m.reg_Ω with should_make_infinite_paperclips := enable } }, [])

  | .AddBL =>
    .ok ({ m with reg_L := wrap16 (m.reg_L + toU16 m.reg_b),
                  flag := decide (65536 ≤ m.reg_L + toU16 m.reg_b) }, [])
  | .SubBL =>
    .ok ({ m with reg_L := (m.reg_L + 65536 - toU16 m.reg_b) % 65536,
                  flag := decide (m.reg_L < toU16 m.reg_b) }, [])
  | .MulBL =>
    .ok ({ m with reg_L := wrap16 (m.reg_L * toU16 m.reg_b),
                  flag := decide (65536 ≤ m.reg_L * toU16 m.reg_b) }, [])
  | .DivBL =>
    -- `u16::overflowing_div` panics when the divisor is zero and never
    -- overflows otherwise, so the overflow component is `false`
    if toU16 m.reg_b = 0 then .error .divByZero
    else .ok ({ m with reg_L := m.reg_L / toU16 m.reg_b, flag := false }, [])
  | .ModBL =>
    .ok ({ m with reg_L :=
            if toU16 m.reg_b = 0 then 0 else m.reg_L % toU16 m.reg_b }, [])

  | .NotL => .ok ({ m with reg_L := m.reg_L ^^^ 65535 }, [])
  | .AndBL => .ok ({ m with reg_L := m.reg_L &&& toU16 m.reg_b }, [])
  | .OrBL => .ok ({ m with reg_L := m.reg_L ||| toU16 m.reg_b }, [])
  | .XorBL => .ok ({ m with reg_L := m.reg_L ^^^ toU16 m.reg_b }, [])

  | .CmpLB =>
    let L1 : Nat := if 32767 < m.reg_L then 32767 else m.reg_L
    let f1 : Bool := if 32767 < m.reg_L then true else m.flag
    let l : Int := toI16 L1
    if -32768 ≤ l - m.reg_b ∧ l - m.reg_b ≤ 32767 then
      .ok ({ m with reg_L := L1, flag := f1, reg_b := l - m.reg_b }, [])
    else
      .ok ({ m with reg_L := L1, flag := true, reg_b := 32767 }, [])

  | .TgFlag => .ok ({ m with flag := !m.flag }, [])
  | .ClFlag => .ok ({ m with flag := false }, [])

  | .AddF data => do
    let v ← index_u64 m.memory data
    .ok ({ m with reg_f := fops.fadd m.reg_f v }, [])
  | .SubF data => do
    let v ← index_u64 m.memory data
    .ok ({ m with reg_f := fops.fsub m.reg_f v }, [])
  | .MulF data => do
    let v ← index_u64 m.memory data
    .ok ({ m with reg_f := fops.fmul m.reg_f v }, [])
  | .DivF data => do
    let v ← index_u64 m.memory data
    .ok ({ m with reg_f := fops.fdiv m.reg_f v }, [])
  | .ModF data => do
    let v ← index_u64 m.memory data
    .ok ({ m with reg_f := fops.fmod m.reg_f v }, [])

  | .StackAlloc amount =>
    match m.stack.alloc amount with
    | .ok st' => .ok ({ m with stack := st' }, [])
    | .error _ => .ok ({ m with flag := true }, [])
  | .StackDealloc amount =>
    match m.stack.dealloc amount with
    | .ok st' => .ok ({ m with stack := st' }, [])
    | .error _ => .ok ({ m with flag := true }, [])

  | .Push data => do
    let v ← readMem m.memory data
    match m.stack.push_byte v with
    | .ok st' => .ok ({ m with stack := st' }, [])
    | .error _ => .ok ({ m with flag := true }, [])
  | .Pushi data =>
    match m.stack.push_byte data with
    | .ok st' => .ok ({ m with stack := st' }, [])
    | .error _ => .ok ({ m with flag := true }, [])
  | .Pop data =>
    match m.stack.pop_byte with
    | (some v, st') => do
      let mem' ← writeMem m.memory data v
      .ok ({ m with stack := st', memory := mem' }, [])
    | (none, st') => .ok ({ m with stack := st', flag := true }, [])

  | .Popa =>
    match m.stack.pop_byte with
    | (some v, st') => .ok ({ m with stack := st', reg_a := v }, [])
    | (none, st') => .ok ({ m with stack := st', flag := true }, [])
  | .Pusha =>
    match m.stack.push_byte m.reg_a with
    | .ok st' => .ok ({ m with stack := st' }, [])
    | .error _ => .ok ({ m with flag := true }, [])

  | .Popb =>
    match m.stack.pop_u16 with
    | (some v, st') => .ok ({ m with stack := st', reg_b := toI16 v }, [])
    | (none, st') => .ok ({ m with stack := st', flag := true }, [])
  | .Pushb =>
    match m.stack.push_bytes (be2 (toU16 m.reg_b)) with
    | .ok st' => .ok ({ m with stack := st' }, [])
    | .error _ => .ok ({ m with flag := true }, [])

  | .PopL =>
    match m.stack.pop_u16 with
    | (some v, st') => .ok ({ m with stack := st', reg_L := v }, [])
    | (none, st') => .ok ({ m with stack := st', flag := true }, [])
  | .PushL =>
    match m.stack.push_bytes (be2 m.reg_L) with
    | .ok st' => .ok ({ m with stack := st' }, [])
    | .error _ => .ok ({ m with flag := true }, [])

  | .Popf =>
    match m.stack.pop_u64 with
    | (some v, st') => .ok ({ m with stack := st', reg_f := v }, [])
    | (none, st') => .ok ({ m with stack := st', flag := true }, [])
  | .Pushf =>
    match m.stack.push_bytes (be8 m.reg_f) with
    | .ok st' => .ok ({ m with stack := st' }, [])
    | .error _ => .ok ({ m with flag := true }, [])

  | .Popch =>
    -- `char::from_u32_unchecked`: validity of the scalar is the machine
    -- code author's obligation; the bit pattern is stored as-is
    match m.stack.pop_u32 with
    | (some v, st') => .ok ({ m with stack := st', reg_ch := v }, [])
    | (none, st') => .ok ({ m with stack := st', flag := true }, [])
  | .Pushch =>
    match m.stack.push_bytes (be4 m.reg_ch) with
    | .ok st' => .ok ({ m with stack := st' }, [])
    | .error _ => .ok ({ m with flag := true }, [])

  | .Popnum =>
    match m.stack.pop_u32 with
    | (some v, st') => .ok ({ m with stack := st', num_reg := toI32 v }, [])
    | (none, st') => .ok ({ m with stack := st', flag := true }, [])
  | .Pushnum =>
    match m.stack.push_bytes (be4 (toU32 m.num_reg)) with
    | .ok st' => .ok ({ m with stack := st' }, [])
    | .error _ => .ok ({ m with flag := true }, [])

  | .Popep =>
    match m.stack.pop_u16 with
    | (some v, st') => .ok ({ m with stack := st', reg_ep := v }, [])
    | (none, st') => .ok ({ m with stack := st', flag := true }, [])
  | .Zpopep =>
    if m.reg_b = 0 then
      match m.stack.pop_u16 with
      | (some v, st') => .ok ({ m with stack := st', reg_ep := v }, [])
      | (none, st') => .ok ({ m with stack := st', flag := true }, [])
    else .ok (m, [])
  | .Ppopep =>
    if 0 < m.reg_b then
      match m.stack.pop_u16 with
      | (some v, st') => .ok ({ m with stack := st', reg_ep := v }, [])
      | (none, st') => .ok ({ m with stack := st', flag := true }, [])
    else .ok (m, [])
  | .Npopep =>
    if m.reg_b < 0 then
      match m.stack.pop_u16 with
      | (some v, st') => .ok ({ m with stack := st', reg_ep := v }, [])
      | (none, st') => .ok ({ m with stack := st', flag := true }, [])
    else .ok (m, [])
  | .Fpopep =>
    if m.flag then
      match m.stack.pop_u16 with
      | (some v, st') => .ok ({ m with stack := st', reg_ep := v }, [])
      | (none, st') => .ok ({ m with stack := st', flag := true }, [])
    else .ok (m, [])
  | .Zapopep =>
    if m.reg_a = 0 then
      match m.stack.pop_u16 with
      | (some v, st') => .ok ({ m with stack := st', reg_ep := v }, [])
      | (none, st') => .ok ({ m with stack := st', flag := true }, [])
    else .ok (m, [])
  | .Dpopep =>
    if m.debug_mode then
      match m.stack.pop_u16 with
      | (some v, st') => .ok ({ m with stack := st', reg_ep := v }, [])
      | (none, st') => .ok ({ m with stack := st', flag := true }, [])
    else .ok (m, [])

  -- GetChar performs no dot-pointer check: raw mode is enabled, a key is
  -- read into reg_ch, raw mode is disabled
  | .GetChar =>
    .ok ({ m with reg_ch := env.key },
         [.enableRawMode, .readKey, .disableRawMode])
  | .GetLine => do
    let v ← readMem m.memory m.reg_dp
    if v ≠ 46 then .ok ({ m with flag := true }, [])
    else
      -- the line is read into a local buffer and discarded
      .ok (m, [.readLine])

  | .WriteChar => do
    let v ← readMem m.memory m.reg_dp
    if v ≠ 46 then .ok ({ m with flag := true }, [])
    else .ok (m, m.num_debug ++ [.writeCharBuf (writeCharBuffer m.reg_ch)])
  | .WriteLiness => do
    let v ← readMem m.memory m.reg_dp
    if v ≠ 46 then .ok ({ m with flag := true }, [])
    else .ok (m, m.num_debug ++ [.writeStr m.reg_ss.vec])
  | .WriteLine data => do
    let v ← readMem m.memory m.reg_dp
    if v ≠ 46 then .ok ({ m with flag := true }, [])
    else do
      let bs ← cstrBytes m.memory data
      .ok (m, m.num_debug ++ [.writeStr bs])

  | .ToggleDebug => .ok ({ m with debug_mode := !m.debug_mode }, [])

  | .DebugMachineState => do
    let v ← readMem m.memory m.reg_dp
    if v ≠ 46 then .ok ({ m with flag := true }, [])
    else .ok (m, m.num_debug ++ [.printState m])
  | .DebugMachineStateCompact => do
    let v ← readMem m.memory m.reg_dp
    if v ≠ 46 then .ok ({ m with flag := true }, [])
    else .ok (m, m.num_debug ++ [.printStateCompact m])
  | .DebugMemoryRegion data0 data1 => do
    let v ← readMem m.memory m.reg_dp
    if v ≠ 46 then .ok ({ m with flag := true }, [])
    else do
      let bs ← sliceRange (memList m.memory) data0 data1
      .ok (m, m.num_debug ++ [.printMemRegion bs])
  | .DebugStackRegion data0 data1 => do
    let v ← readMem m.memory m.reg_dp
    if v ≠ 46 then .ok ({ m with flag := true }, [])
    else do
      let bs ← sliceRange m.stack.vec data0 data1
      .ok (m, m.num_debug ++ [.printStackRegion bs])
  | .ShowChoice => do
    let v ← readMem m.memory m.reg_dp
    if v ≠ 46 then .ok ({ m with flag := true }, [])
    else
      .ok (m, m.num_debug ++
           [.showChoice (choiceShownBytes m.reg_Ω.illusion_of_choice)])

end Machine

/-- `Machine::fetch_instruction`: `None` when halted; otherwise one opcode
byte is fetched, and (`InstructionKind::from_repr` fused with the per-kind
operand fetches into a single match on that byte) the operands follow.
A byte with no `InstructionKind` yields `none` with `reg_ep` already
advanced past it. -/
def Machine.fetch_instruction (m : Machine) : Except Panic (Option Instruction × Machine) :=
  if m.halted then .ok (none, m)
  else
    match m.fetch_byte with
    | .error e => .error e
    | .ok (b, m1) =>
      match b with
      | 0 => .ok (some .Nop, m1)
      | 1 =>
        match m1.fetch_2_bytes with
        | .error e => .error e
        | .ok (d, m2) => .ok (some (.Ldar d), m2)
      | 2 => .ok (some .Sba, m1)
      | 3 => .ok (some .Clrr, m1)
      | 4 =>
        match m1.fetch_2_bytes with
        | .error e => .error e
        | .ok (d, m2) => .ok (some (.Dumprr d), m2)
      | 5 =>
        match m1.fetch_byte with
        | .error e => .error e
        | .ok (d, m2) => .ok (some (.Movarr d), m2)
      | 6 =>
        match m1.fetch_byte with
        | .error e => .error e
        | .ok (d0, m2) =>
          match m2.fetch_2_bytes with
          | .error e => .error e
          | .ok (d1, m3) => .ok (some (.Setrr d0 d1), m3)
      | 7 =>
        match m1.fetch_byte with
        | .error e => .error e
        | .ok (d0, m2) =>
          match m2.fetch_byte with
          | .error e => .error e
          | .ok (d1, m3) => .ok (some (.Setirr d0 (toI8 d1)), m3)
      | 8 =>
        match m1.fetch_2_bytes with
        | .error e => .error e
        | .ok (d, m2) => .ok (some (.Ldrr d), m2)
      | 9 =>
        match m1.fetch_i8_list 37 with
        | .error e => .error e
        | .ok (arr, m2) => .ok (some (.Ldirr arr), m2)
      | 10 => .ok (some .Clss, m1)
      | 11 =>
        match m1.fetch_2_bytes with
        | .error e => .error e
        | .ok (d, m2) => .ok (some (.Dumpss d), m2)
      | 12 =>
        match m1.fetch_2_bytes with
        | .error e => .error e
        | .ok (d0, m2) =>
          match m2.fetch_byte with
          | .error e => .error e
          | .ok (d1, m3) => .ok (some (.Writess d0 d1), m3)
      | 13 =>
        match m1.fetch_byte with
        | .error e => .error e
        | .ok (d, m2) => .ok (some (.Movass d), m2)
      | 14 =>
        match m1.fetch_2_bytes with
        | .error e => .error e
        | .ok (d0, m2) =>
          match m2.fetch_byte with
          | .error e => .error e
          | .ok (d1, m3) => .ok (some (.Setss d0 d1), m3)
      | 15 =>
        match m1.fetch_byte with
        | .error e => .error e
        | .ok (d0, m2) =>
          match m2.fetch_byte with
          | .error e => .error e
          | .ok (d1, m3) => .ok (some (.Setiss d0 d1), m3)
      | 16 =>
        match m1.fetch_2_bytes with
        | .error e => .error e
        | .ok (d, m2) => .ok (some (.Ldss d), m2)
      | 17 => .ok (some .Pushss, m1)
      | 18 => .ok (some .Popss, m1)
      | 19 => .ok (some .Lenssa, m1)
      | 20 =>
        match m1.fetch_2_bytes with
        | .error e => .error e
        | .ok (d, m2) => .ok (some (.Ldidp d), m2)
      | 21 =>
        match m1.fetch_byte with
        | .error e => .error e
        | .ok (d, m2) =>
          match choiceOfByte d with
          | .error e => .error e
          | .ok c => .ok (some (.ΩChoiceSet c), m2)
      | 22 => .ok (some .ΩChoiceGetA, m1)
      | 23 => .ok (some .ΩGainAPolymorphicDesires, m1)
      | 24 => .ok (some .ΩLoseAPolymorphicDesires, m1)
      | 25 => .ok (some .ΩPushPolymorphicDesires, m1)
      | 26 => .ok (some .ΩTheEndIsNear, m1)
      | 27 => .ok (some .ΩSkipToTheChase, m1)
      | 28 =>
        match m1.fetch_byte with
        | .error e => .error e
        | .ok (d, m2) => .ok (some (.ΩSetSentience (d != 0)), m2)
      | 29 =>
        match m1.fetch_byte with
        | .error e => .error e
        | .ok (d, m2) => .ok (some (.ΩSetPaperclipProduction (d != 0)), m2)
      | 30 => .ok (some .AddBL, m1)
      | 31 => .ok (some .SubBL, m1)
      | 32 => .ok (some .MulBL, m1)
      | 33 => .ok (some .DivBL, m1)
      | 34 => .ok (some .ModBL, m1)
      | 35 => .ok (some .NotL, m1)
      | 36 => .ok (some .AndBL, m1)
      | 37 => .ok (some .OrBL, m1)
      | 38 => .ok (some .XorBL, m1)
      | 39 => .ok (some .CmpLB, m1)
      | 40 => .ok (some .TgFlag, m1)
      | 41 => .ok (some .ClFlag, m1)
      | 42 =>
        match m1.fetch_2_bytes with
        | .error e => .error e
        | .ok (d, m2) => .ok (some (.AddF d), m2)
      | 43 =>
        match m1.fetch_2_bytes with
        | .error e => .error e
        | .ok (d, m2) => .ok (some (.SubF d), m2)
      | 44 =>
        match m1.fetch_2_bytes with
        | .error e => .error e
        | .ok (d, m2) => .ok (some (.MulF d), m2)
      | 45 =>
        match m1.fetch_2_bytes with
        | .error e => .error e
        | .ok (d, m2) => .ok (some (.DivF d), m2)
      | 46 =>
        match m1.fetch_2_bytes with
        | .error e => .error e
        | .ok (d, m2) => .ok (some (.ModF d), m2)
      | 47 =>
        match m1.fetch_2_bytes with
        | .error e => .error e
        | .ok (d, m2) => .ok (some (.StackAlloc d), m2)
      | 48 =>
        match m1.fetch_2_bytes with
        | .error e => .error e
        | .ok (d, m2) => .ok (some (.StackDealloc d), m2)
      | 49 =>
        match m1.fetch_2_bytes with
        | .error e => .error e
        | .ok (d, m2) => .ok (some (.Push d), m2)
      | 50 =>
        match m1.fetch_byte with
        | .error e => .error e
        | .ok (d, m2) => .ok (some (.Pushi d), m2)
      | 51 =>
        match m1.fetch_2_bytes with
        | .error e => .error e
        | .ok (d, m2) => .ok (some (.Pop d), m2)
      | 52 => .ok (some .Popa, m1)
      | 53 => .ok (some .Pusha, m1)
      | 54 => .ok (some .Popb, m1)
      | 55 => .ok (some .Pushb, m1)
      | 56 => .ok (some .PopL, m1)
      | 57 => .ok (some .PushL, m1)
      | 58 => .ok (some .Popf, m1)
      | 59 => .ok (some .Pushf, m1)
      | 60 => .ok (some .Popch, m1)
      | 61 => .ok (some .Pushch, m1)
      | 62 => .ok (some .Popnum, m1)
      | 63 => .ok (some .Pushnum, m1)
      | 64 => .ok (some .Popep, m1)
      | 65 => .ok (some .Zpopep, m1)
      | 66 => .ok (some .Ppopep, m1)
      | 67 => .ok (some .Npopep, m1)
      | 68 => .ok (some .Fpopep, m1)
      | 69 => .ok (some .Zapopep, m1)
      | 70 => .ok (some .Dpopep, m1)
      | 71 => .ok (some .GetChar, m1)
      | 72 => .ok (some .GetLine, m1)
      | 73 => .ok (some .WriteChar, m1)
      | 74 => .ok (some .WriteLiness, m1)
      | 75 =>
        match m1.fetch_2_bytes with
        | .error e => .error e
        | .ok (d, m2) => .ok (some (.WriteLine d), m2)
      | 76 => .ok (some .ToggleDebug, m1)
      | 77 => .ok (some .DebugMachineState, m1)
      | 78 => .ok (some .DebugMachineStateCompact, m1)
      | 79 =>
        match m1.fetch_2_bytes with
        | .error e => .error e
        | .ok (d0, m2) =>
          match m2.fetch_2_bytes with
          | .error e => .error e
          | .ok (d1, m3) => .ok (some (.DebugMemoryRegion d0 d1), m3)
      | 80 =>
        match m1.fetch_2_bytes with
        | .error e => .error e
        | .ok (d0, m2) =>
          match m2.fetch_2_bytes with
          | .error e => .error e
          | .ok (d1, m3) => .ok (some (.DebugStackRegion d0 d1), m3)
      | 81 => .ok (some .ShowChoice, m1)
      | _ => .ok (none, m1)

/-- The local `load_byte` helper of `Machine::load_instruction`. -/
def load_byte_at (mem : Mem) (index value : Nat) : Except Panic (Mem × Nat) :=
  match writeMem mem index value with
  | .error e => .error e
  | .ok mem' => .ok (mem', wrap16 (index + 1))

/-- The local `load_bytes` helper of `Machine::load_instruction`: the
source writes `bytes[i]` at `offset.wrapping_add(i)` for each `i` and then
advances `offset` by `bytes.len()` wrapping; here each step wraps the
running offset, which visits the same indices and ends at the same
offset. -/
def load_bytes_at (mem : Mem) (offset : Nat) : List Nat → Except Panic (Mem × Nat)
  | [] => .ok (mem, offset)
  | b :: rest =>
    match writeMem mem (wrap16 offset) b with
    | .error e => .error e
    | .ok mem' => load_bytes_at mem' (wrap16 (offset + 1)) rest

/-- `Machine::load_instruction`: writes one instruction at `offset`
(opcode byte, then operand bytes, via the source's local `load_byte` /
`load_bytes` helpers), returning the machine and the advanced offset (the
source threads the offset through an `&mut u16`; the sequencing of helper
calls is the monadic bind). -/
def Machine.load_instruction (m : Machine) (instruction : Instruction)
    (offset : Nat) : Except Panic (Machine × Nat) :=
  match instruction with
  | .Nop =>
    (load_byte_at m.memory offset 0).bind fun p0 =>
    .ok ({ m with memory := p0.1 }, p0.2)
  | .Ldar d =>
    (load_byte_at m.memory offset 1).bind fun p0 =>
    (load_bytes_at p0.1 p0.2 (be2 d)).bind fun p1 =>
    .ok ({ m with memory := p1.1 }, p1.2)
  | .Sba =>
    (load_byte_at m.memory offset 2).bind fun p0 =>
    .ok ({ m with memory := p0.1 }, p0.2)
  | .Clrr =>
    (load_byte_at m.memory offset 3).bind fun p0 =>
    .ok ({ m with memory := p0.1 }, p0.2)
  | .Dumprr d =>
    (load_byte_at m.memory offset 4).bind fun p0 =>
    (load_bytes_at p0.1 p0.2 (be2 d)).bind fun p1 =>
    .ok ({ m with memory := p1.1 }, p1.2)
  | .Movarr d =>
    (load_byte_at m.memory offset 5).bind fun p0 =>
    (load_byte_at p0.1 p0.2 d).bind fun p1 =>
    .ok ({ m with memory := p1.1 }, p1.2)
  | .Setrr d0 d1 =>
    (load_byte_at m.memory offset 6).bind fun p0 =>
    (load_byte_at p0.1 p0.2 d0).bind fun p1 =>
    (load_bytes_at p1.1 p1.2 (be2 d1)).bind fun p2 =>
    .ok ({ m with memory := p2.1 }, p2.2)
  | .Setirr d0 d1 =>
    (load_byte_at m.memory offset 7).bind fun p0 =>
    (load_byte_at p0.1 p0.2 d0).bind fun p1 =>
    (load_byte_at p1.1 p1.2 (toU8 d1)).bind fun p2 =>
    .ok ({ m with memory := p2.1 }, p2.2)
  | .Ldrr d =>
    (load_byte_at m.memory offset 8).bind fun p0 =>
    (load_bytes_at p0.1 p0.2 (be2 d)).bind fun p1 =>
    .ok ({ m with memory := p1.1 }, p1.2)
  | .Ldirr arr =>
    (load_byte_at m.memory offset 9).bind fun p0 =>
    (load_bytes_at p0.1 p0.2 (arr.map toU8)).bind fun p1 =>
    .ok ({ m with memory := p1.1 }, p1.2)
  | .Clss =>
    (load_byte_at m.memory offset 10).bind fun p0 =>
    .ok ({ m with memory := p0.1 }, p0.2)
  | .Dumpss d =>
    (load_byte_at m.memory offset 11).bind fun p0 =>
    (load_bytes_at p0.1 p0.2 (be2 d)).bind fun p1 =>
    .ok ({ m with memory := p1.1 }, p1.2)
  | .Writess d0 d1 =>
    (load_byte_at m.memory offset 12).bind fun p0 =>
    (load_bytes_at p0.1 p0.2 (be2 d0)).bind fun p1 =>
    (load_byte_at p1.1 p1.2 d1).bind fun p2 =>
    .ok ({ m with memory := p2.1 }, p2.2)
  | .Movass d =>
    (load_byte_at m.memory offset 13).bind fun p0 =>
    (load_byte_at p0.1 p0.2 d).bind fun p1 =>
    .ok ({ m with memory := p1.1 }, p1.2)
  | .Setss d0 d1 =>
    (load_byte_at m.memory offset 14).bind fun p0 =>
    (load_bytes_at p0.1 p0.2 (be2 d0)).bind fun p1 =>
    (load_byte_at p1.1 p1.2 d1).bind fun p2 =>
    .ok ({ m with memory := p2.1 }, p2.2)
  | .Setiss d0 d1 =>
    (load_byte_at m.memory offset 15).bind fun p0 =>
    (load_byte_at p0.1 p0.2 d0).bind fun p1 =>
    (load_byte_at p1.1 p1.2 d1).bind fun p2 =>
    .ok ({ m with memory := p2.1 }, p2.2)
  | .Ldss d =>
    (load_byte_at m.memory offset 16).bind fun p0 =>
    (load_bytes_at p0.1 p0.2 (be2 d)).bind fun p1 =>
    .ok ({ m with memory := p1.1 }, p1.2)
  | .Pushss =>
    (load_byte_at m.memory offset 17).bind fun p0 =>
    .ok ({ m with memory := p0.1 }, p0.2)
  | .Popss =>
    (load_byte_at m.memory offset 18).bind fun p0 =>
    .ok ({ m with memory := p0.1 }, p0.2)
  | .Lenssa =>
    (load_byte_at m.memory offset 19).bind fun p0 =>
    .ok ({ m with memory := p0.1 }, p0.2)
  | .Ldidp d =>
    (load_byte_at m.memory offset 20).bind fun p0 =>
    (load_bytes_at p0.1 p0.2 (be2 d)).bind fun p1 =>
    .ok ({ m with memory := p1.1 }, p1.2)
  | .ΩChoiceSet c =>
    (load_byte_at m.memory offset 21).bind fun p0 =>
    (load_byte_at p0.1 p0.2 (choiceToByte c)).bind fun p1 =>
    .ok ({ m with memory := p1.1 }, p1.2)
  | .ΩChoiceGetA =>
    (load_byte_at m.memory offset 22).bind fun p0 =>
    .ok ({ m with memory := p0.1 }, p0.2)
  | .ΩGainAPolymorphicDesires =>
    (load_byte_at m.memory offset 23).bind fun p0 =>
    .ok ({ m with memory := p0.1 }, p0.2)
  | .ΩLoseAPolymorphicDesires =>
    (load_byte_at m.memory offset 24).bind fun p0 =>
    .ok ({ m with memory := p0.1 }, p0.2)
  | .ΩPushPolymorphicDesires =>
    (load_byte_at m.memory offset 25).bind fun p0 =>
    .ok ({ m with memory := p0.1 }, p0.2)
  | .ΩTheEndIsNear =>
    (load_byte_at m.memory offset 26).bind fun p0 =>
    .ok ({ m with memory := p0.1 }, p0.2)
  | .ΩSkipToTheChase =>
    (load_byte_at m.memory offset 27).bind fun p0 =>
    .ok ({ m with memory := p0.1 }, p0.2)
  | .ΩSetSentience enable =>
    (load_byte_at m.memory offset 28).bind fun p0 =>
    (load_byte_at p0.1 p0.2 (if enable then 1 else 0)).bind fun p1 =>
    .ok ({ m with memory := p1.1 }, p1.2)
  | .ΩSetPaperclipProduction enable =>
    (load_byte_at m.memory offset 29).bind fun p0 =>
    (load_byte_at p0.1 p0.2 (if enable then 1 else 0)).bind fun p1 =>
    .ok ({ m with memory := p1.1 }, p1.2)
  | .AddBL =>
    (load_byte_at m.memory offset 30).bind fun p0 =>
    .ok ({ m with memory := p0.1 }, p0.2)
  | .SubBL =>
    (load_byte_at m.memory offset 31).bind fun p0 =>
    .ok ({ m with memory := p0.1 }, p0.2)
  | .MulBL =>
    (load_byte_at m.memory offset 32).bind fun p0 =>
    .ok ({ m with memory := p0.1 }, p0.2)
  | .DivBL =>
    (load_byte_at m.memory offset 33).bind fun p0 =>
    .ok ({ m with memory := p0.1 }, p0.2)
  | .ModBL =>
    (load_byte_at m.memory offset 34).bind fun p0 =>
    .ok ({ m with memory := p0.1 }, p0.2)
  | .NotL =>
    (load_byte_at m.memory offset 35).bind fun p0 =>
    .ok ({ m with memory := p0.1 }, p0.2)
  | .AndBL =>
    (load_byte_at m.memory offset 36).bind fun p0 =>
    .ok ({ m with memory := p0.1 }, p0.2)
  | .OrBL =>
    (load_byte_at m.memory offset 37).bind fun p0 =>
    .ok ({ m with memory := p0.1 }, p0.2)
  | .XorBL =>
    (load_byte_at m.memory offset 38).bind fun p0 =>
    .ok ({ m with memory := p0.1 }, p0.2)
  | .CmpLB =>
    (load_byte_at m.memory offset 39).bind fun p0 =>
    .ok ({ m with memory := p0.1 }, p0.2)
  | .TgFlag =>
    (load_byte_at m.memory offset 40).bind fun p0 =>
    .ok ({ m with memory := p0.1 }, p0.2)
  | .ClFlag =>
    (load_byte_at m.memory offset 41).bind fun p0 =>
    .ok ({ m with memory := p0.1 }, p0.2)
  | .AddF d =>
    (load_byte_at m.memory offset 42).bind fun p0 =>
    (load_bytes_at p0.1 p0.2 (be2 d)).bind fun p1 =>
    .ok ({ m with memory := p1.1 }, p1.2)
  | .SubF d =>
    (load_byte_at m.memory offset 43).bind fun p0 =>
    (load_bytes_at p0.1 p0.2 (be2 d)).bind fun p1 =>
    .ok ({ m with memory := p1.1 }, p1.2)
  | .MulF d =>
    (load_byte_at m.memory offset 44).bind fun p0 =>
    (load_bytes_at p0.1 p0.2 (be2 d)).bind fun p1 =>
    .ok ({ m with memory := p1.1 }, p1.2)
  | .DivF d =>
    (load_byte_at m.memory offset 45).bind fun p0 =>
    (load_bytes_at p0.1 p0.2 (be2 d)).bind fun p1 =>
    .ok ({ m with memory := p1.1 }, p1.2)
  | .ModF d =>
    (load_byte_at m.memory offset 46).bind fun p0 =>
    (load_bytes_at p0.1 p0.2 (be2 d)).bind fun p1 =>
    .ok ({ m with memory := p1.1 }, p1.2)
  | .StackAlloc d =>
    (load_byte_at m.memory offset 47).bind fun p0 =>
    (load_bytes_at p0.1 p0.2 (be2 d)).bind fun p1 =>
    .ok ({ m with memory := p1.1 }, p1.2)
  | .StackDealloc d =>
    (load_byte_at m.memory offset 48).bind fun p0 =>
    (load_bytes_at p0.1 p0.2 (be2 d)).bind fun p1 =>
    .ok ({ m with memory := p1.1 }, p1.2)
  | .Push d =>
    (load_byte_at m.memory offset 49).bind fun p0 =>
    (load_bytes_at p0.1 p0.2 (be2 d)).bind fun p1 =>
    .ok ({ m with memory := p1.1 }, p1.2)
  | .Pushi d =>
    (load_byte_at m.memory offset 50).bind fun p0 =>
    (load_bytes_at p0.1 p0.2 [d]).bind fun p1 =>
    .ok ({ m with memory := p1.1 }, p1.2)
  | .Pop d =>
    (load_byte_at m.memory offset 51).bind fun p0 =>
    (load_bytes_at p0.1 p0.2 (be2 d)).bind fun p1 =>
    .ok ({ m with memory := p1.1 }, p1.2)
  | .Popa =>
    (load_byte_at m.memory offset 52).bind fun p0 =>
    .ok ({ m with memory := p0.1 }, p0.2)
  | .Pusha =>
    (load_byte_at m.memory offset 53).bind fun p0 =>
    .ok ({ m with memory := p0.1 }, p0.2)
  | .Popb =>
    (load_byte_at m.memory offset 54).bind fun p0 =>
    .ok ({ m with memory := p0.1 }, p0.2)
  | .Pushb =>
    (load_byte_at m.memory offset 55).bind fun p0 =>
    .ok ({ m with memory := p0.1 }, p0.2)
  | .PopL =>
    (load_byte_at m.memory offset 56).bind fun p0 =>
    .ok ({ m with memory := p0.1 }, p0.2)
  | .PushL =>
    (load_byte_at m.memory offset 57).bind fun p0 =>
    .ok ({ m with memory := p0.1 }, p0.2)
  | .Popf =>
    (load_byte_at m.memory offset 58).bind fun p0 =>
    .ok ({ m with memory := p0.1 }, p0.2)
  | .Pushf =>
    (load_byte_at m.memory offset 59).bind fun p0 =>
    .ok ({ m with memory := p0.1 }, p0.2)
  | .Popch =>
    (load_byte_at m.memory offset 60).bind fun p0 =>
    .ok ({ m with memory := p0.1 }, p0.2)
  | .Pushch =>
    (load_byte_at m.memory offset 61).bind fun p0 =>
    .ok ({ m with memory := p0.1 }, p0.2)
  | .Popnum =>
    (load_byte_at m.memory offset 62).bind fun p0 =>
    .ok ({ m with memory := p0.1 }, p0.2)
  | .Pushnum =>
    (load_byte_at m.memory offset 63).bind fun p0 =>
    .ok ({ m with memory := p0.1 }, p0.2)
  | .Popep =>
    (load_byte_at m.memory offset 64).bind fun p0 =>
    .ok ({ m with memory := p0.1 }, p0.2)
  | .Zpopep =>
    (load_byte_at m.memory offset 65).bind fun p0 =>
    .ok ({ m with memory := p0.1 }, p0.2)
  | .Ppopep =>
    (load_byte_at m.memory offset 66).bind fun p0 =>
    .ok ({ m with memory := p0.1 }, p0.2)
  | .Npopep =>
    (load_byte_at m.memory offset 67).bind fun p0 =>
    .ok ({ m with memory := p0.1 }, p0.2)
  | .Fpopep =>
    (load_byte_at m.memory offset 68).bind fun p0 =>
    .ok ({ m with memory := p0.1 }, p0.2)
  | .Zapopep =>
    (load_byte_at m.memory offset 69).bind fun p0 =>
    .ok ({ m with memory := p0.1 }, p0.2)
  | .Dpopep =>
    (load_byte_at m.memory offset 70).bind fun p0 =>
    .ok ({ m with memory := p0.1 }, p0.2)
  | .GetChar =>
    (load_byte_at m.memory offset 71).bind fun p0 =>
    .ok ({ m with memory := p0.1 }, p0.2)
  | .GetLine =>
    (load_byte_at m.memory offset 72).bind fun p0 =>
    .ok ({ m with memory := p0.1 }, p0.2)
  | .WriteChar =>
    (load_byte_at m.memory offset 73).bind fun p0 =>
    .ok ({ m with memory := p0.1 }, p0.2)
  | .WriteLiness =>
    (load_byte_at m.memory offset 74).bind fun p0 =>
    .ok ({ m with memory := p0.1 }, p0.2)
  | .WriteLine d =>
    (load_byte_at m.memory offset 75).bind fun p0 =>
    (load_bytes_at p0.1 p0.2 (be2 d)).bind fun p1 =>
    .ok ({ m with memory := p1.1 }, p1.2)
  | .ToggleDebug =>
    (load_byte_at m.memory offset 76).bind fun p0 =>
    .ok ({ m with memory := p0.1 }, p0.2)
  | .DebugMachineState =>
    (load_byte_at m.memory offset 77).bind fun p0 =>
    .ok ({ m with memory := p0.1 }, p0.2)
  | .DebugMachineStateCompact =>
    (load_byte_at m.memory offset 78).bind fun p0 =>
    .ok ({ m with memory := p0.1 }, p0.2)
  | .DebugMemoryRegion d0 d1 =>
    (load_byte_at m.memory offset 79).bind fun p0 =>
    (load_bytes_at p0.1 p0.2 (be2 d0)).bind fun p1 =>
    (load_bytes_at p1.1 p1.2 (be2 d1)).bind fun p2 =>
    .ok ({ m with memory := p2.1 }, p2.2)
  | .DebugStackRegion d0 d1 =>
    (load_byte_at m.memory offset 80).bind fun p0 =>
    (load_bytes_at p0.1 p0.2 (be2 d0)).bind fun p1 =>
    (load_bytes_at p1.1 p1.2 (be2 d1)).bind fun p2 =>
    .ok ({ m with memory := p2.1 }, p2.2)
  | .ShowChoice =>
    (load_byte_at m.memory offset 81).bind fun p0 =>
    .ok ({ m with memory := p0.1 }, p0.2)

/-- The operand bytes of an instruction exactly as `load_instruction`
lays them out after the opcode (a derived description of the byte image,
used to state and prove the round-trip property). -/
def instrFields : Instruction → List Nat
  | .Nop => []
  | .Ldar d => be2 d
  | .Sba => []
  | .Clrr => []
  | .Dumprr d => be2 d
  | .Movarr d => [d]
  | .Setrr d0 d1 => d0 :: be2 d1
  | .Setirr d0 d1 => [d0, toU8 d1]
  | .Ldrr d => be2 d
  | .Ldirr arr => arr.map toU8
  | .Clss => []
  | .Dumpss d => be2 d
  | .Writess d0 d1 => be2 d0 ++ [d1]
  | .Movass d => [d]
  | .Setss d0 d1 => be2 d0 ++ [d1]
  | .Setiss d0 d1 => [d0, d1]
  | .Ldss d => be2 d
  | .Pushss => []
  | .Popss => []
  | .Lenssa => []
  | .Ldidp d => be2 d
  | .ΩChoiceSet c => [choiceToByte c]
  | .ΩChoiceGetA => []
  | .ΩGainAPolymorphicDesires => []
  | .ΩLoseAPolymorphicDesires => []
  | .ΩPushPolymorphicDesires => []
  | .ΩTheEndIsNear => []
  | .ΩSkipToTheChase => []
  | .ΩSetSentience e => [if e then 1 else 0]
  | .ΩSetPaperclipProduction e => [if e then 1 else 0]
  | .AddBL => []
  | .SubBL => []
  | .MulBL => []
  | .DivBL => []
  | .ModBL => []
  | .NotL => []
  | .AndBL => []
  | .OrBL => []
  | .XorBL => []
  | .CmpLB => []
  | .TgFlag => []
  | .ClFlag => []
  | .AddF d => be2 d
  | .SubF d => be2 d
  | .MulF d => be2 d
  | .DivF d => be2 d
  | .ModF d => be2 d
  | .StackAlloc d => be2 d
  | .StackDealloc d => be2 d
  | .Push d => be2 d
  | .Pushi d => [d]
  | .Pop d => be2 d
  | .Popa => []
  | .Pusha => []
  | .Popb => []
  | .Pushb => []
  | .PopL => []
  | .PushL => []
  | .Popf => []
  | .Pushf => []
  | .Popch => []
  | .Pushch => []
  | .Popnum => []
  | .Pushnum => []
  | .Popep => []
  | .Zpopep => []
  | .Ppopep => []
  | .Npopep => []
  | .Fpopep => []
  | .Zapopep => []
  | .Dpopep => []
  | .GetChar => []
  | .GetLine => []
  | .WriteChar => []
  | .WriteLiness => []
  | .WriteLine d => be2 d
  | .ToggleDebug => []
  | .DebugMachineState => []
  | .DebugMachineStateCompact => []
  | .DebugMemoryRegion d0 d1 => be2 d0 ++ be2 d1
  | .DebugStackRegion d0 d1 => be2 d0 ++ be2 d1
  | .ShowChoice => []

/-- The full byte image of an instruction: opcode, then operand bytes. -/
def instrBytes (x : Instruction) : List Nat := x.opcode :: instrFields x

/-- Representable instructions: every operand value fits the declared
width of its byte layout (`u8`/`u16`/`i8`; the 37-slot immediate has
exactly 37 in-range `i8` entries; `Bool` and the 5-state choice operand
are representable by construction). -/
def representableB : Instruction → Bool
  | .Nop => true
  | .Ldar d => decide (d < 65536)
  | .Sba => true
  | .Clrr => true
  | .Dumprr d => decide (d < 65536)
  | .Movarr d => decide (d < 256)
  | .Setrr d0 d1 => decide (d0 < 256) && decide (d1 < 65536)
  | .Setirr d0 d1 => decide (d0 < 256) && decide (-128 ≤ d1) && decide (d1 < 128)
  | .Ldrr d => decide (d < 65536)
  | .Ldirr arr => decide (arr.length = 37) && arr.all (fun v => decide (-128 ≤ v) && decide (v < 128))
  | .Clss => true
  | .Dumpss d => decide (d < 65536)
  | .Writess d0 d1 => decide (d0 < 65536) && decide (d1 < 256)
  | .Movass d => decide (d < 256)
  | .Setss d0 d1 => decide (d0 < 65536) && decide (d1 < 256)
  | .Setiss d0 d1 => decide (d0 < 256) && decide (d1 < 256)
  | .Ldss d => decide (d < 65536)
  | .Pushss => true
  | .Popss => true
  | .Lenssa => true
  | .Ldidp d => decide (d < 65536)
  | .ΩChoiceSet _ => true
  | .ΩChoiceGetA => true
  | .ΩGainAPolymorphicDesires => true
  | .ΩLoseAPolymorphicDesires => true
  | .ΩPushPolymorphicDesires => true
  | .ΩTheEndIsNear => true
  | .ΩSkipToTheChase => true
  | .ΩSetSentience _ => true
  | .ΩSetPaperclipProduction _ => true
  | .AddBL => true
  | .SubBL => true
  | .MulBL => true
  | .DivBL => true
  | .ModBL => true
  | .NotL => true
  | .AndBL => true
  | .OrBL => true
  | .XorBL => true
  | .CmpLB => true
  | .TgFlag => true
  | .ClFlag => true
  | .AddF d => decide (d < 65536)
  | .SubF d => decide (d < 65536)
  | .MulF d => decide (d < 65536)
  | .DivF d => decide (d < 65536)
  | .ModF d => decide (d < 65536)
  | .StackAlloc d => decide (d < 65536)
  | .StackDealloc d => decide (d < 65536)
  | .Push d => decide (d < 65536)
  | .Pushi d => decide (d < 256)
  | .Pop d => decide (d < 65536)
  | .Popa => true
  | .Pusha => true
  | .Popb => true
  | .Pushb => true
  | .PopL => true
  | .PushL => true
  | .Popf => true
  | .Pushf => true
  | .Popch => true
  | .Pushch => true
  | .Popnum => true
  | .Pushnum => true
  | .Popep => true
  | .Zpopep => true
  | .Ppopep => true
  | .Npopep => true
  | .Fpopep => true
  | .Zapopep => true
  | .Dpopep => true
  | .GetChar => true
  | .GetLine => true
  | .WriteChar => true
  | .WriteLiness => true
  | .WriteLine d => decide (d < 65536)
  | .ToggleDebug => true
  | .DebugMachineState => true
  | .DebugMachineStateCompact => true
  | .DebugMemoryRegion d0 d1 => decide (d0 < 65536) && decide (d1 < 65536)
  | .DebugStackRegion d0 d1 => decide (d0 < 65536) && decide (d1 < 65536)
  | .ShowChoice => true

/-! ## Concrete fixtures used by counterexamples and witnesses -/

/-- A trivial float-operation table (the claims never look at `reg_f`'s
value, so any table works for concrete runs). -/
def F0 : FloatOps := ⟨fun _ _ => 0, fun _ _ => 0, fun _ _ => 0, fun _ _ => 0, fun _ _ => 0⟩

/-- A host environment whose key read yields `'A'` (65). -/
def E0 : IOEnv := ⟨65⟩

/-- The I/O and debug-print instructions that check the dot-pointer
sentinel (`memory[reg_dp] == b'.'`) before acting.  `GetChar` is NOT among
them: its arm has no such check. -/
def dotGated : Instruction → Bool
  | .GetLine | .WriteChar | .WriteLiness | .WriteLine _
  | .DebugMachineState | .DebugMachineStateCompact
  | .DebugMemoryRegion _ _ | .DebugStackRegion _ _ | .ShowChoice => true
  | _ => false

/-- The stack-transfer instructions whose stack mutation goes through the
all-or-nothing primitives `push_byte`, `push_bytes`, `alloc`, `dealloc`,
or a single `pop_byte` (which cannot partially fail). -/
def atomicStackXfer : Instruction → Bool
  | .Push _ | .Pushi _ | .Pop _ | .Popa | .Pusha | .Pushb | .PushL | .Pushf
  | .Pushch | .Pushnum | .StackAlloc _ | .StackDealloc _
  | .ΩPushPolymorphicDesires => true
  | _ => false

/-- The instructions whose arms can WRITE `false` into the flag: the
add/sub/mul/div arms assign the overflow result to the flag outright,
`Ldidp`'s rejection path assigns `false`, and `TgFlag`/`ClFlag` are the
dedicated flag instructions. -/
def overwritesFlag : Instruction → Bool
  | .AddBL | .SubBL | .MulBL | .DivBL | .Ldidp _ | .TgFlag | .ClFlag => true
  | _ => false

/-! ## Theorems for the claims -/

/-- C2: the spec says memory is exactly 65536 bytes and that every access
wraps mod 2^16 without panicking; the source allocates `Box<[u8; 0xFFFF]>`
(65535 bytes), so `fetch_byte` at address 65535 indexes out of range
(a panic), and `fetch_2_bytes` at 65534 likewise reaches address 65535
instead of wrapping to 0. -/
theorem fetch_at_address_65535_panics :
    MEMLEN = 65535 ∧
    Machine.fetch_byte { Machine.default with reg_ep := 65535 } =
      .error .indexOutOfRange ∧
    Machine.fetch_2_bytes { Machine.default with reg_ep := 65534 } =
      .error .indexOutOfRange ∧
    readMem Machine.default.memory 65535 = .error .indexOutOfRange :=
  ⟨rfl, rfl, rfl, rfl⟩

/-- C3 counterexample: address 4 is not in the allow-list, and executing
`Ldidp 4` on a machine whose sticky flag is `true` yields a machine whose
flag is `false` — the rejection path runs `self.flag = false`, so it
clears the flag instead of setting it (the dot pointer is left at 5 as the
claim says). -/
theorem ldidp_reject_clears_flag_counterexample :
    Machine.execute_instruction F0 E0
        { Machine.default with flag := true, reg_dp := 5 } (.Ldidp 4) =
      .ok ({ Machine.default with flag := false, reg_dp := 5 }, []) ∧
    is_fib_prime_or_semiprime_u16 4 = false ∧
    ({ Machine.default with flag := true, reg_dp := 5 } : Machine).flag = true :=
  ⟨rfl, rfl, rfl⟩

/-- C3 amended: executing `Ldidp d` for a `d` outside the
Fibonacci-and-prime-or-semiprime allow-list leaves the dot pointer at its
previous value but CLEARS the sticky flag (sets it to `false`), and
`Ldidp 28657` sets the dot pointer to 28657 without touching the flag. -/
theorem ldidp_validation (fops : FloatOps) (env : IOEnv) (m : Machine)
    (d : Nat) (hd : is_fib_prime_or_semiprime_u16 d = false) :
    m.execute_instruction fops env (.Ldidp d) = .ok ({ m with flag := false }, []) ∧
    m.execute_instruction fops env (.Ldidp 28657) =
      .ok ({ m with reg_dp := 28657 }, []) := by
  refine ⟨?_, rfl⟩
  simp [Machine.execute_instruction, hd]

/-- Witness for C3's amended theorem at `d = 4` on the default machine. -/
theorem ldidp_validation_witness :
    is_fib_prime_or_semiprime_u16 4 = false ∧
    (Machine.default.execute_instruction F0 E0 (.Ldidp 4) =
        .ok ({ Machine.default with flag := false }, []) ∧
      Machine.default.execute_instruction F0 E0 (.Ldidp 28657) =
        .ok ({ Machine.default with reg_dp := 28657 }, [])) :=
  ⟨rfl, ldidp_validation F0 E0 Machine.default 4 rfl⟩

/-- C6: the spec requires division/modulo by zero to be a no-panic
fallback; `DivBL` uses `u16::overflowing_div`, which panics when the
divisor is zero, so with register B = 0 it panics — while `ModBL`
(`checked_rem(..).unwrap_or(0)`) indeed sets register L to 0 without
panicking. -/
theorem divbl_by_zero_panics :
    Machine.execute_instruction F0 E0
        { Machine.default with reg_L := 7 } .DivBL = .error .divByZero ∧
    Machine.execute_instruction F0 E0
        { Machine.default with reg_L := 7 } .ModBL = .ok (Machine.default, []) ∧
    ({ Machine.default with reg_L := 7 } : Machine).reg_b = 0 :=
  ⟨rfl, rfl, rfl⟩


/-- C4 counterexample: on the default machine `memory[reg_dp] = 0 ≠ '.'`,
yet `GetChar` (which the claim lists) still enables raw mode, blocks on a
key read and stores it into `reg_ch`, producing external effects, leaving
the flag unset and changing `reg_ch` — the GetChar arm simply has no
dot-pointer check. -/
theorem getchar_ignores_gate_counterexample :
    Machine.default.execute_instruction F0 E0 .GetChar =
      .ok ({ Machine.default with reg_ch := 65 },
           [.enableRawMode, .readKey, .disableRawMode]) ∧
    Machine.default.memory Machine.default.reg_dp = 0 ∧
    Machine.default.flag = false :=
  ⟨rfl, rfl, rfl⟩

/-- C4 amended: for the dot-pointer-gated I/O and debug instructions
(GetLine, WriteChar, WriteLineß, WriteLine, DebugMachineState,
DebugMachineStateCompact, DebugMemoryRegion, DebugStackRegion,
ShowChoice — i.e. the claim's list without GetChar), executing in a state
where `memory[reg_dp]` is readable and differs from the sentinel `'.'`
(46) produces no external side effect, sets the sticky flag, and changes
nothing else in the machine state. -/
theorem io_gate_blocks (fops : FloatOps) (env : IOEnv) (m : Machine)
    (i : Instruction) (v : Nat) (hi : dotGated i = true)
    (hv : readMem m.memory m.reg_dp = .ok v) (hne : v ≠ 46) :
    m.execute_instruction fops env i = .ok ({ m with flag := true }, []) := by
  cases i <;> simp only [dotGated, Bool.false_eq_true] at hi <;>
    simp [Machine.execute_instruction, hv, hne, bind, Except.bind]

/-- Witness for C4's amended theorem: `GetLine` on the default machine
(`memory[0] = 0 ≠ 46`). -/
theorem io_gate_blocks_witness :
    dotGated .GetLine = true ∧
    readMem Machine.default.memory Machine.default.reg_dp = .ok 0 ∧
    (0 : Nat) ≠ 46 ∧
    Machine.default.execute_instruction F0 E0 .GetLine =
      .ok ({ Machine.default with flag := true }, []) :=
  ⟨rfl, rfl, by decide, io_gate_blocks F0 E0 Machine.default .GetLine 0 rfl rfl (by decide)⟩

/-- C9: `Movaß` with an index at or beyond ß's current length is a
complete silent no-op (machine unchanged, no flag), while the analogous
out-of-range failures of `Setß` and `Setiß` set the sticky flag (and
change nothing else). -/
theorem movass_silent_noop_vs_setss_flag (fops : FloatOps) (env : IOEnv)
    (m : Machine) (d a0 v : Nat) (hd : m.reg_ss.vec.length ≤ d)
    (hv : readMem m.memory a0 = .ok v) :
    m.execute_instruction fops env (.Movass d) = .ok (m, []) ∧
    m.execute_instruction fops env (.Setss a0 d) = .ok ({ m with flag := true }, []) ∧
    m.execute_instruction fops env (.Setiss v d) = .ok ({ m with flag := true }, []) := by
  have hset : ∀ w, m.reg_ss.set d w = .error .overflow := by
    intro w
    simp [ConstantSizeString.set, Nat.not_lt_of_le hd]
  refine ⟨?_, ?_, ?_⟩
  · simp [Machine.execute_instruction, hset]
  · simp [Machine.execute_instruction, hv, hset, bind, Except.bind]
  · simp [Machine.execute_instruction, hset]

/-- Witness for C9 on the default machine (ß empty, index 3, address 0). -/
theorem movass_silent_noop_witness :
    Machine.default.reg_ss.vec.length ≤ 3 ∧
    readMem Machine.default.memory 0 = .ok 0 ∧
    (Machine.default.execute_instruction F0 E0 (.Movass 3) = .ok (Machine.default, []) ∧
      Machine.default.execute_instruction F0 E0 (.Setss 0 3) =
        .ok ({ Machine.default with flag := true }, []) ∧
      Machine.default.execute_instruction F0 E0 (.Setiss 0 3) =
        .ok ({ Machine.default with flag := true }, [])) :=
  ⟨by decide, rfl,
   movass_silent_noop_vs_setss_flag F0 E0 Machine.default 3 0 0 (by decide) rfl⟩

/-- C10: `Setř(i, addr)` with `i < 37` copies slot `i` of the 37-slot
array register ř INTO memory at `addr` (only memory changes; ř, the flag
and everything else stay), and with `i ≥ 37` it is a silent no-op that
does not set the flag. -/
theorem setrr_copies_register_to_memory (fops : FloatOps) (env : IOEnv)
    (m : Machine) (i addr : Nat) (hlen : m.reg_rr.length = 37)
    (haddr : addr < MEMLEN) :
    (∀ v, m.reg_rr[i]? = some v →
      m.execute_instruction fops env (.Setrr i addr) =
        .ok ({ m with memory := fun j => if j = addr then toU8 v else m.memory j }, [])) ∧
    (i < 37 → ∃ v, m.reg_rr[i]? = some v) ∧
    (37 ≤ i → m.execute_instruction fops env (.Setrr i addr) = .ok (m, [])) := by
  refine ⟨?_, ?_, ?_⟩
  · intro v hv
    simp [Machine.execute_instruction, hv, writeMem, haddr, bind, Except.bind]
  · intro hi
    have h : i < m.reg_rr.length := by omega
    exact ⟨m.reg_rr.get ⟨i, h⟩, List.getElem?_eq_getElem h⟩
  · intro hi
    have h : m.reg_rr[i]? = none := List.getElem?_eq_none (by omega)
    simp [Machine.execute_instruction, h]

/-- Witness for C10 at slot 0 (value 0) and address 123, and at slot 37. -/
theorem setrr_copies_register_to_memory_witness :
    Machine.default.reg_rr.length = 37 ∧ (123 : Nat) < MEMLEN ∧
    (Machine.default.reg_rr[0]? = some 0 →
      Machine.default.execute_instruction F0 E0 (.Setrr 0 123) =
        .ok ({ Machine.default with
                memory := fun j => if j = 123 then toU8 0 else Machine.default.memory j }, [])) ∧
    ((37 : Nat) ≤ 37 → Machine.default.execute_instruction F0 E0 (.Setrr 37 123) =
      .ok (Machine.default, [])) :=
  ⟨by decide, by decide,
   (setrr_copies_register_to_memory F0 E0 Machine.default 0 123 (by decide) (by decide)).1 0,
   (setrr_copies_register_to_memory F0 E0 Machine.default 37 123 (by decide) (by decide)).2.2⟩

/-- C8: `CmpLB` first checks whether register L (unsigned) exceeds 32767:
if so it clamps L to 32767 and sets the flag; it then subtracts register B
from L reinterpreted as `i16` (which, after the clamp, is just L's value):
if the difference fits in `i16` it is stored in register B, otherwise
register B is set to 32767 and the flag is set.  Stated over well-formed
registers (L a `u16` value, B an `i16` value); with B ≤ 32767 the
subtraction can only overflow upward, and after clamping it overflows
exactly when B is negative. -/
theorem cmplb_semantics (fops : FloatOps) (env : IOEnv) (m : Machine)
    (hL : m.reg_L < 65536) (hb1 : -32768 ≤ m.reg_b) (hb2 : m.reg_b ≤ 32767) :
    (m.reg_L ≤ 32767 → (m.reg_L : Int) - m.reg_b ≤ 32767 →
      m.execute_instruction fops env .CmpLB =
        .ok ({ m with reg_b := (m.reg_L : Int) - m.reg_b }, [])) ∧
    (m.reg_L ≤ 32767 → 32767 < (m.reg_L : Int) - m.reg_b →
      m.execute_instruction fops env .CmpLB =
        .ok ({ m with reg_b := 32767, flag := true }, [])) ∧
    (32767 < m.reg_L →
      m.execute_instruction fops env .CmpLB =
        .ok ({ m with reg_L := 32767, flag := true, reg_b := (if 0 ≤ m.reg_b then 32767 - m.reg_b else 32767) }, [])) := by
  refine ⟨?_, ?_, ?_⟩
  · intro h1 h2
    have hn : ¬ 32767 < m.reg_L := by omega
    simp only [Machine.execute_instruction, if_neg hn, toI16]
    rw [if_pos (by omega : m.reg_L < 32768), if_pos ⟨by omega, h2⟩]
  · intro h1 h2
    have hn : ¬ 32767 < m.reg_L := by omega
    simp only [Machine.execute_instruction, if_neg hn, toI16]
    rw [if_pos (by omega : m.reg_L < 32768), if_neg (by omega)]
  · intro h1
    simp only [Machine.execute_instruction, if_pos h1, toI16]
    rw [if_pos (by omega : (32767 : Nat) < 32768)]
    rcases le_or_lt 0 m.reg_b with hpos | hneg
    · rw [if_pos ⟨by omega, by omega⟩, if_pos hpos]
      norm_num
    · rw [if_neg (by omega), if_neg (by omega)]

/-- Witness for C8 at L = 5, B = 3 (in-range subtraction: B becomes 2). -/
theorem cmplb_semantics_witness :
    ({ Machine.default with reg_L := 5, reg_b := 3 } : Machine).reg_L < 65536 ∧
    (((5 : Nat) : Int) - 3 ≤ 32767) ∧
    Machine.execute_instruction F0 E0
        { Machine.default with reg_L := 5, reg_b := 3 } .CmpLB =
      .ok ({ Machine.default with reg_L := 5, reg_b := ((5 : Nat) : Int) - 3 }, []) :=
  ⟨by decide, by decide,
   (cmplb_semantics F0 E0 { Machine.default with reg_L := 5, reg_b := 3 }
     (by decide) (by decide) (by decide)).1 (by decide) (by decide)⟩

/-- A failed `Stack::pop_byte` (empty stack) leaves the stack unchanged. -/
theorem Stack.pop_byte_none_eq {s s' : Stack} (h : s.pop_byte = (none, s')) :
    s' = s := by
  unfold Stack.pop_byte at h
  split at h <;> simp_all


/-- C7 counterexample: `Popb` on a stack holding exactly one byte reports
underflow (flag set) but DRAINS that byte: `pop_u16` pops the low byte
before discovering there is no high byte, and the claim's required
"stack contents exactly as before the attempt" fails. -/
theorem popb_partial_drain_counterexample :
    Machine.execute_instruction F0 E0
        { Machine.default with stack := ⟨[7], 4095⟩ } .Popb =
      .ok ({ Machine.default with flag := true }, []) ∧
    ({ Machine.default with flag := true } : Machine).stack.vec = [] ∧
    ([7] : List Nat) ≠ [] :=
  ⟨rfl, rfl, by decide⟩

/-- C7 amended: for the transfer instructions that go through the
all-or-nothing stack primitives (Push, Pushi, Pop, Popa, Pusha, Pushb,
PushL, Pushf, Pushch, Pushnum, StackAlloc, StackDealloc,
ΩPushPolymorphicDesires), a reported overflow/underflow sets the flag and
leaves all other machine state — including the stack contents — exactly as
before the attempt; the multi-byte pops (Popb, PopL, Popf, Popch, Popnum)
and the ß transfers may instead drain data before reporting failure. -/
theorem stack_xfer_failure_atomic (fops : FloatOps) (env : IOEnv)
    (m : Machine) (i : Instruction) (m' : Machine) (es : List Effect)
    (hi : atomicStackXfer i = true) (hf : m.flag = false)
    (hex : m.execute_instruction fops env i = .ok (m', es)) :
    es = [] ∧ (m'.flag = true → m' = { m with flag := true }) := by
  cases i <;> simp only [atomicStackXfer, Bool.false_eq_true] at hi <;>
  · simp only [Machine.execute_instruction, bind, Except.bind] at hex
    repeat' split at hex
    all_goals first
      | exact Except.noConfusion hex
      | (try obtain rfl := Stack.pop_byte_none_eq (by assumption)
         injection hex with h
         injection h with h1 h2
         subst h1
         subst h2
         refine ⟨rfl, fun h' => ?_⟩
         simp_all)

/-- Witness for C7's amended theorem: `Pusha` on a zero-capacity stack
fails, sets the flag, and changes nothing else. -/
theorem stack_xfer_failure_atomic_witness :
    atomicStackXfer .Pusha = true ∧
    ({ Machine.default with stack := ⟨[], 0⟩ } : Machine).flag = false ∧
    ([] : List Effect) = [] ∧
    (({ Machine.default with stack := ⟨[], 0⟩, flag := true } : Machine).flag = true →
      ({ Machine.default with stack := ⟨[], 0⟩, flag := true } : Machine) =
        { { Machine.default with stack := ⟨[], 0⟩ } with flag := true }) :=
  ⟨rfl, rfl,
   (stack_xfer_failure_atomic F0 E0 { Machine.default with stack := ⟨[], 0⟩ }
     .Pusha { Machine.default with stack := ⟨[], 0⟩, flag := true } []
     rfl rfl rfl).1,
   (stack_xfer_failure_atomic F0 E0 { Machine.default with stack := ⟨[], 0⟩ }
     .Pusha { Machine.default with stack := ⟨[], 0⟩, flag := true } []
     rfl rfl rfl).2⟩


/-- C5 counterexample: with the sticky flag set and B = L = 0, `AddBL`
does not overflow, yet the flag comes out `false` — the arm executes
`(reg_L, flag) = reg_L.overflowing_add(..)`, overwriting the flag with
the overflow result instead of leaving a set flag set. -/
theorem addbl_clears_flag_counterexample :
    Machine.execute_instruction F0 E0
        { Machine.default with flag := true } .AddBL = .ok (Machine.default, []) ∧
    Machine.default.flag = false :=
  ⟨rfl, rfl⟩

/-- C5 amended: with the sticky flag `true`, executing any single
instruction other than the dedicated flag instructions `TgFlag`/`ClFlag`,
the flag-overwriting arithmetic `AddBL`/`SubBL`/`MulBL`/`DivBL`, and
`Ldidp` (whose rejection clears the flag) leaves the flag `true`.  (A
non-overflowing AddBL/SubBL/MulBL and a rejected Ldidp, contrary to the
claim, clear it.) -/
theorem flag_persists (fops : FloatOps) (env : IOEnv) (m : Machine)
    (i : Instruction) (m' : Machine) (es : List Effect)
    (hm : m.flag = true) (hi : overwritesFlag i = false)
    (hex : m.execute_instruction fops env i = .ok (m', es)) :
    m'.flag = true := by
  cases i <;> simp only [overwritesFlag, Bool.true_eq_false] at hi <;>
  · simp only [Machine.execute_instruction, bind, Except.bind,
      Machine.num_debug] at hex
    repeat' split at hex
    all_goals first
      | exact Except.noConfusion hex
      | (injection hex with h
         injection h with h1 h2
         subst h1
         simp_all)

/-- Witness for C5's amended theorem: `Nop` on a machine with the flag
set leaves it set. -/
theorem flag_persists_witness :
    ({ Machine.default with flag := true } : Machine).flag = true ∧
    overwritesFlag .Nop = false ∧
    ({ Machine.default with flag := true } : Machine).flag = true :=
  ⟨rfl, rfl,
   flag_persists F0 E0 { Machine.default with flag := true } .Nop
     { Machine.default with flag := true } [] rfl rfl rfl⟩

/-! ### Round-trip infrastructure (C1) -/

/-- `load_byte` is `load_bytes` of a singleton (for in-range offsets). -/
theorem load_byte_at_singleton (mem : Mem) (off v : Nat) (h : off < 65536) :
    load_byte_at mem off v = load_bytes_at mem off [v] := by
  simp [load_byte_at, load_bytes_at, wrap16, Nat.mod_eq_of_lt h]

/-- Writing a byte list that fits below `MEMLEN` succeeds, advances the
offset by the list length, stores the bytes at consecutive addresses, and
leaves all other addresses unchanged. -/
theorem load_bytes_at_sound (mem : Mem) (off : Nat) (bs : List Nat)
    (h : off + bs.length ≤ MEMLEN) :
    ∃ mem', load_bytes_at mem off bs = .ok (mem', off + bs.length) ∧
      (∀ i, i < bs.length → mem' (off + i) = bs.getD i 0) ∧
      (∀ j, j < off ∨ off + bs.length ≤ j → mem' j = mem j) := by
  induction bs generalizing mem off with
  | nil => exact ⟨mem, by simp [load_bytes_at], by simp, fun j _ => rfl⟩
  | cons b rest ih =>
    have h65 : off + (rest.length + 1) ≤ 65535 := h
    have hoff : off < MEMLEN := by
      have : (MEMLEN : Nat) = 65535 := rfl
      omega
    have hw : wrap16 off = off := Nat.mod_eq_of_lt (by omega)
    have hw1 : wrap16 (off + 1) = off + 1 := Nat.mod_eq_of_lt (by omega)
    obtain ⟨mem', hld, hrd, hfr⟩ :=
      ih (fun j => if j = off then b else mem j) (off + 1)
        (by have : (MEMLEN : Nat) = 65535 := rfl; simp; omega)
    refine ⟨mem', ?_, ?_, ?_⟩
    · simp only [load_bytes_at, hw, writeMem, if_pos hoff, hw1, hld,
        List.length_cons]
      have : off + 1 + rest.length = off + (rest.length + 1) := by omega
      rw [this]
    · intro i hi
      match i with
      | 0 =>
        have := hfr off (Or.inl (by omega))
        simpa using this
      | Nat.succ k =>
        have hk : k < rest.length := by simpa using hi
        have := hrd k hk
        have heq : off + 1 + k = off + (k + 1) := by omega
        rw [heq] at this
        simpa using this
    · intro j hj
      simp only [List.length_cons] at hj
      have h1 := hfr j (by omega)
      rw [h1]
      have : j ≠ off := by omega
      simp [this]

/-- `fetch_byte` on an in-range execution pointer. -/
theorem fetch_byte_at (M : Machine) (h : M.reg_ep + 1 ≤ MEMLEN) :
    M.fetch_byte = .ok (M.memory M.reg_ep, { M with reg_ep := M.reg_ep + 1 }) := by
  have h65 : M.reg_ep + 1 ≤ 65535 := h
  have h1 : M.reg_ep < MEMLEN := by
    have : (MEMLEN : Nat) = 65535 := rfl
    omega
  simp [Machine.fetch_byte, readMem, if_pos h1, wrap16, bind, Except.bind,
    Nat.mod_eq_of_lt (show M.reg_ep + 1 < 65536 by omega)]

/-- `fetch_2_bytes` on an in-range execution pointer. -/
theorem fetch_2_bytes_at (M : Machine) (h : M.reg_ep + 2 ≤ MEMLEN) :
    M.fetch_2_bytes =
      .ok (M.memory M.reg_ep * 256 + M.memory (M.reg_ep + 1),
           { M with reg_ep := M.reg_ep + 2 }) := by
  have h65 : M.reg_ep + 2 ≤ 65535 := h
  have hm : (MEMLEN : Nat) = 65535 := rfl
  have h1 : M.reg_ep < MEMLEN := by omega
  have h2 : M.reg_ep + 1 < MEMLEN := by omega
  simp [Machine.fetch_2_bytes, readMem, if_pos h1, if_pos h2, wrap16, bind,
    Except.bind, Nat.mod_eq_of_lt (show M.reg_ep + 2 < 65536 by omega)]

/-- `fetch_i8_list` on an in-range execution pointer reads the `n`
consecutive bytes (as `i8`s, most significant address last). -/
theorem fetch_i8_list_at (n : Nat) (M : Machine) (h : M.reg_ep + n ≤ MEMLEN) :
    M.fetch_i8_list n =
      .ok ((List.range' M.reg_ep n).map (fun a => toI8 (M.memory a)),
           { M with reg_ep := M.reg_ep + n }) := by
  induction n generalizing M with
  | zero => simp [Machine.fetch_i8_list, List.range']
  | succ k ih =>
    have h65 : M.reg_ep + (k + 1) ≤ 65535 := h
    rw [Machine.fetch_i8_list]
    rw [fetch_byte_at M (by have : (MEMLEN : Nat) = 65535 := rfl; omega)]
    have hrec := ih { M with reg_ep := M.reg_ep + 1 }
      (by have : (MEMLEN : Nat) = 65535 := rfl; simp; omega)
    simp only [bind, Except.bind]
    rw [hrec]
    have : M.reg_ep + 1 + k = M.reg_ep + (k + 1) := by omega
    simp [List.range', this]

/-- `i8 → u8 → i8` transmute round trip on in-range values. -/
theorem toI8_toU8 (v : Int) (h1 : -128 ≤ v) (h2 : v < 128) :
    toI8 (toU8 v) = v := by
  unfold toI8 toU8
  split <;> omega

/-- The one-byte `Choice` transmute round-trips for the five valid
values. -/
theorem choice_roundtrip (c : Choice) : choiceOfByte (choiceToByte c) = .ok c := by
  rcases c with _ | (_ | (_ | (_ | _))) <;> rfl

/-- Big-endian `u16` byte split/recombine round trip. -/
theorem be2_roundtrip (d : Nat) (h : d < 65536) :
    d / 256 % 256 * 256 + d % 256 = d := by
  omega

/-- A wrapped offset is always a valid `u16`. -/
theorem wrap16_lt (n : Nat) : wrap16 n < 65536 := Nat.mod_lt _ (by norm_num)

/-- Sequencing two byte-list writes is one write of the concatenation. -/
theorem load_bytes_at_bind_append {α : Type} (mem : Mem) (off : Nat)
    (xs ys : List Nat) (F : Mem × Nat → Except Panic α) :
    ((load_bytes_at mem off xs).bind fun p =>
      (load_bytes_at p.1 p.2 ys).bind F) =
    (load_bytes_at mem off (xs ++ ys)).bind F := by
  induction xs generalizing mem off with
  | nil => rfl
  | cons b rest ih =>
    simp only [List.cons_append, load_bytes_at]
    cases writeMem mem (wrap16 off) b
    · rfl
    · exact ih _ _

/-- Sequencing a byte-list write and a single-byte write is one write of
the list extended by that byte (for in-range starting offsets). -/
theorem load_bytes_at_bind_byte {α : Type} (mem : Mem) (off : Nat)
    (xs : List Nat) (v : Nat) (F : Mem × Nat → Except Panic α)
    (hoff : off < 65536) :
    ((load_bytes_at mem off xs).bind fun p =>
      (load_byte_at p.1 p.2 v).bind F) =
    (load_bytes_at mem off (xs ++ [v])).bind F := by
  induction xs generalizing mem off with
  | nil =>
    show (load_byte_at mem off v).bind F = _
    rw [load_byte_at_singleton _ _ _ hoff]
    rfl
  | cons b rest ih =>
    simp only [List.cons_append, load_bytes_at]
    cases writeMem mem (wrap16 off) b
    · rfl
    · exact ih _ _ (wrap16_lt (off + 1))

/-- A byte-wise `(if e then 1 else 0) != 0` decode recovers the `Bool`. -/
theorem bool_byte_roundtrip (e : Bool) : (((if e then 1 else 0 : Nat)) != 0) = e := by
  cases e <;> rfl

/-- Reading back, as `i8`s, a stored `i8` list (addresses `p, p+1, …`)
recovers the list when all values are in `i8` range. -/
theorem read_i8_list (mem' : Mem) (p : Nat) (arr : List Int)
    (hrd : ∀ i, i < arr.length → mem' (p + i) = (arr.map toU8).getD i 0)
    (hr : ∀ v ∈ arr, -128 ≤ v ∧ v < 128) :
    (List.range' p arr.length).map (fun a => toI8 (mem' a)) = arr := by
  induction arr generalizing p with
  | nil => simp
  | cons a rest ih =>
    have h0 : mem' p = toU8 a := by simpa using hrd 0 (by simp)
    have hrest : ∀ i, i < rest.length →
        mem' (p + 1 + i) = (rest.map toU8).getD i 0 := by
      intro i hi
      have h2 := hrd (i + 1) (by simp; omega)
      have h3 : p + (i + 1) = p + 1 + i := by omega
      simpa [h3] using h2
    have ha := hr a (by simp)
    simp [List.range', h0, toI8_toU8 a ha.1 ha.2,
      ih (p + 1) hrest (fun v hv => hr v (by simp [hv]))]

/-- `load_instruction` normalized: it writes exactly the byte image
`instrBytes x` at the offset. -/
theorem load_instruction_norm (m : Machine) (x : Instruction) (off : Nat)
    (hoff : off < 65536) :
    m.load_instruction x off =
      (load_bytes_at m.memory off (instrBytes x)).bind
        (fun q => .ok ({ m with memory := q.1 }, q.2)) := by
  cases x <;>
    simp only [Machine.load_instruction,
      load_byte_at_singleton _ _ _ hoff, load_bytes_at_bind_append,
      load_bytes_at_bind_byte _ _ _ _ _ hoff, instrBytes, instrFields,
      Instruction.opcode, List.append_assoc, List.cons_append,
      List.nil_append, List.singleton_append]

set_option maxHeartbeats 4000000 in
/-- C1 amended: for every representable instruction `x`, every offset with
`off + |instrBytes x| ≤ 65535` (so that neither the encode nor the decode
touches the out-of-range address 65535), and every non-halted machine,
`load_instruction` writes the byte image and returns the advanced offset,
and `fetch_instruction` from that same offset decodes `some x`, consuming
exactly the bytes written.  (At larger offsets the encode panics — memory
is only 65535 bytes — see the counterexample.) -/
theorem encode_decode_roundtrip (m : Machine) (x : Instruction) (off : Nat)
    (hx : representableB x = true)
    (hoff : off + (instrBytes x).length ≤ MEMLEN)
    (hh : m.halted = false) :
    ∃ mem',
      m.load_instruction x off =
        .ok ({ m with memory := mem' }, off + (instrBytes x).length) ∧
      Machine.fetch_instruction { m with memory := mem', reg_ep := off } =
        .ok (some x,
             { m with memory := mem', reg_ep := off + (instrBytes x).length }) := by
  obtain ⟨mem', hld, hrd, hfr⟩ := load_bytes_at_sound m.memory off (instrBytes x) hoff
  refine ⟨mem', ?_, ?_⟩
  · rw [load_instruction_norm m x off (by
      have h1 : off + (instrBytes x).length ≤ 65535 := hoff
      omega), hld]
    rfl
  · clear hld hfr
    cases x
    case Nop =>
      have h65 : off + 1 ≤ 65535 := hoff
      have e0 : mem' off = 0 := by
        simpa [instrBytes, instrFields, Instruction.opcode, be2] using hrd 0 (by simp [instrBytes, instrFields, be2])
      rw [Machine.fetch_instruction]
      rw [fetch_byte_at _ (by exact (show off + 1 ≤ 65535 by omega))]
      simp [hh, e0, instrBytes, instrFields]
    case Ldar d =>
      have h65 : off + 3 ≤ 65535 := hoff
      have hd : d < 65536 := by simpa [representableB] using hx
      have e0 : mem' off = 1 := by
        simpa [instrBytes, instrFields, Instruction.opcode, be2] using hrd 0 (by simp [instrBytes, instrFields, be2])
      have e1 : mem' (off + 1) = d / 256 % 256 := by
        simpa [instrBytes, instrFields, Instruction.opcode, be2] using hrd 1 (by simp [instrBytes, instrFields, be2])
      have e2 : mem' (off + 2) = d % 256 := by
        simpa [instrBytes, instrFields, Instruction.opcode, be2] using hrd 2 (by simp [instrBytes, instrFields, be2])
      rw [Machine.fetch_instruction]
      rw [fetch_byte_at _ (by exact (show off + 1 ≤ 65535 by omega))]
      simp only [hh, e0]
      rw [fetch_2_bytes_at _ (by exact (show off + 1 + 2 ≤ 65535 by omega))]
      simp [e1, e2, hh, instrBytes, instrFields, be2]
      all_goals omega
    case Sba =>
      have h65 : off + 1 ≤ 65535 := hoff
      have e0 : mem' off = 2 := by
        simpa [instrBytes, instrFields, Instruction.opcode, be2] using hrd 0 (by simp [instrBytes, instrFields, be2])
      rw [Machine.fetch_instruction]
      rw [fetch_byte_at _ (by exact (show off + 1 ≤ 65535 by omega))]
      simp [hh, e0, instrBytes, instrFields]
    case Clrr =>
      have h65 : off + 1 ≤ 65535 := hoff
      have e0 : mem' off = 3 := by
        simpa [instrBytes, instrFields, Instruction.opcode, be2] using hrd 0 (by simp [instrBytes, instrFields, be2])
      rw [Machine.fetch_instruction]
      rw [fetch_byte_at _ (by exact (show off + 1 ≤ 65535 by omega))]
      simp [hh, e0, instrBytes, instrFields]
    case Dumprr d =>
      have h65 : off + 3 ≤ 65535 := hoff
      have hd : d < 65536 := by simpa [representableB] using hx
      have e0 : mem' off = 4 := by
        simpa [instrBytes, instrFields, Instruction.opcode, be2] using hrd 0 (by simp [instrBytes, instrFields, be2])
      have e1 : mem' (off + 1) = d / 256 % 256 := by
        simpa [instrBytes, instrFields, Instruction.opcode, be2] using hrd 1 (by simp [instrBytes, instrFields, be2])
      have e2 : mem' (off + 2) = d % 256 := by
        simpa [instrBytes, instrFields, Instruction.opcode, be2] using hrd 2 (by simp [instrBytes, instrFields, be2])
      rw [Machine.fetch_instruction]
      rw [fetch_byte_at _ (by exact (show off + 1 ≤ 65535 by omega))]
      simp only [hh, e0]
      rw [fetch_2_bytes_at _ (by exact (show off + 1 + 2 ≤ 65535 by omega))]
      simp [e1, e2, hh, instrBytes, instrFields, be2]
      all_goals omega
    case Movarr d =>
      have h65 : off + 2 ≤ 65535 := hoff
      have e0 : mem' off = 5 := by
        simpa [instrBytes, instrFields, Instruction.opcode, be2] using hrd 0 (by simp [instrBytes, instrFields, be2])
      have e1 : mem' (off + 1) = d := by
        simpa [instrBytes, instrFields, Instruction.opcode, be2] using hrd 1 (by simp [instrBytes, instrFields, be2])
      rw [Machine.fetch_instruction]
      rw [fetch_byte_at _ (by exact (show off + 1 ≤ 65535 by omega))]
      simp only [hh, e0]
      rw [fetch_byte_at _ (by exact (show off + 1 + 1 ≤ 65535 by omega))]
      simp [e1, hh, instrBytes, instrFields]
    case Setrr d0 d1 =>
      have h65 : off + 4 ≤ 65535 := hoff
      have hx2 : d0 < 256 ∧ d1 < 65536 := by simpa [representableB] using hx
      have e0 : mem' off = 6 := by
        simpa [instrBytes, instrFields, Instruction.opcode, be2] using hrd 0 (by simp [instrBytes, instrFields, be2])
      have e1 : mem' (off + 1) = d0 := by
        simpa [instrBytes, instrFields, Instruction.opcode, be2] using hrd 1 (by simp [instrBytes, instrFields, be2])
      have e2 : mem' (off + 2) = d1 / 256 % 256 := by
        simpa [instrBytes, instrFields, Instruction.opcode, be2] using hrd 2 (by simp [instrBytes, instrFields, be2])
      have e3 : mem' (off + 3) = d1 % 256 := by
        simpa [instrBytes, instrFields, Instruction.opcode, be2] using hrd 3 (by simp [instrBytes, instrFields, be2])
      obtain ⟨hxa, hxb⟩ := hx2
      rw [Machine.fetch_instruction]
      rw [fetch_byte_at _ (by exact (show off + 1 ≤ 65535 by omega))]
      simp only [hh, e0]
      rw [fetch_byte_at _ (by exact (show off + 1 + 1 ≤ 65535 by omega))]
      simp only [e1]
      rw [fetch_2_bytes_at _ (by exact (show off + 1 + 1 + 2 ≤ 65535 by omega))]
      simp [e2, e3, hh, instrBytes, instrFields, be2]
      all_goals omega
    case Setirr d0 d1 =>
      have h65 : off + 3 ≤ 65535 := hoff
      have hx2 : d0 < 256 ∧ -128 ≤ d1 ∧ d1 < 128 := by
        simpa [representableB, and_assoc] using hx
      have e0 : mem' off = 7 := by
        simpa [instrBytes, instrFields, Instruction.opcode, be2] using hrd 0 (by simp [instrBytes, instrFields, be2])
      have e1 : mem' (off + 1) = d0 := by
        simpa [instrBytes, instrFields, Instruction.opcode, be2] using hrd 1 (by simp [instrBytes, instrFields, be2])
      have e2 : mem' (off + 2) = toU8 d1 := by
        simpa [instrBytes, instrFields, Instruction.opcode, be2] using hrd 2 (by simp [instrBytes, instrFields, be2])
      rw [Machine.fetch_instruction]
      rw [fetch_byte_at _ (by exact (show off + 1 ≤ 65535 by omega))]
      simp only [hh, e0]
      rw [fetch_byte_at _ (by exact (show off + 1 + 1 ≤ 65535 by omega))]
      simp only [e1]
      rw [fetch_byte_at _ (by exact (show off + 1 + 1 + 1 ≤ 65535 by omega))]
      simp [e2, hh, toI8_toU8 d1 hx2.2.1 hx2.2.2, instrBytes, instrFields]
    case Ldrr d =>
      have h65 : off + 3 ≤ 65535 := hoff
      have hd : d < 65536 := by simpa [representableB] using hx
      have e0 : mem' off = 8 := by
        simpa [instrBytes, instrFields, Instruction.opcode, be2] using hrd 0 (by simp [instrBytes, instrFields, be2])
      have e1 : mem' (off + 1) = d / 256 % 256 := by
        simpa [instrBytes, instrFields, Instruction.opcode, be2] using hrd 1 (by simp [instrBytes, instrFields, be2])
      have e2 : mem' (off + 2) = d % 256 := by
        simpa [instrBytes, instrFields, Instruction.opcode, be2] using hrd 2 (by simp [instrBytes, instrFields, be2])
      rw [Machine.fetch_instruction]
      rw [fetch_byte_at _ (by exact (show off + 1 ≤ 65535 by omega))]
      simp only [hh, e0]
      rw [fetch_2_bytes_at _ (by exact (show off + 1 + 2 ≤ 65535 by omega))]
      simp [e1, e2, hh, instrBytes, instrFields, be2]
      all_goals omega
    case Ldirr arr =>
      have hx2 : arr.length = 37 ∧ ∀ v ∈ arr, -128 ≤ v ∧ v < 128 := by
        simpa [representableB] using hx
      obtain ⟨hlen, hr⟩ := hx2
      have h0 := hoff
      simp only [instrBytes, instrFields, List.length_cons, List.length_map, hlen] at h0
      have h65 : off + 38 ≤ 65535 := h0
      have e0 : mem' off = 9 := by
        simpa [instrBytes, instrFields, Instruction.opcode, be2] using hrd 0 (by simp [instrBytes, instrFields, be2])
      have hrd1 : ∀ i, i < arr.length → mem' (off + 1 + i) = (arr.map toU8).getD i 0 := by
        intro i hi
        have h2 := hrd (i + 1) (by simp [instrBytes, instrFields]; omega)
        have h3 : off + (i + 1) = off + 1 + i := by omega
        simpa [instrBytes, instrFields, h3] using h2
      have hread := read_i8_list mem' (off + 1) arr hrd1 hr
      rw [hlen] at hread
      rw [Machine.fetch_instruction]
      rw [fetch_byte_at _ (by exact (show off + 1 ≤ 65535 by omega))]
      simp only [hh, e0]
      rw [fetch_i8_list_at 37 _ (by exact (show off + 1 + 37 ≤ 65535 by omega))]
      simp [hread, hh, instrBytes, instrFields, hlen]
    case Clss =>
      have h65 : off + 1 ≤ 65535 := hoff
      have e0 : mem' off = 10 := by
        simpa [instrBytes, instrFields, Instruction.opcode, be2] using hrd 0 (by simp [instrBytes, instrFields, be2])
      rw [Machine.fetch_instruction]
      rw [fetch_byte_at _ (by exact (show off + 1 ≤ 65535 by omega))]
      simp [hh, e0, instrBytes, instrFields]
    case Dumpss d =>
      have h65 : off + 3 ≤ 65535 := hoff
      have hd : d < 65536 := by simpa [representableB] using hx
      have e0 : mem' off = 11 := by
        simpa [instrBytes, instrFields, Instruction.opcode, be2] using hrd 0 (by simp [instrBytes, instrFields, be2])
      have e1 : mem' (off + 1) = d / 256 % 256 := by
        simpa [instrBytes, instrFields, Instruction.opcode, be2] using hrd 1 (by simp [instrBytes, instrFields, be2])
      have e2 : mem' (off + 2) = d % 256 := by
        simpa [instrBytes, instrFields, Instruction.opcode, be2] using hrd 2 (by simp [instrBytes, instrFields, be2])
      rw [Machine.fetch_instruction]
      rw [fetch_byte_at _ (by exact (show off + 1 ≤ 65535 by omega))]
      simp only [hh, e0]
      rw [fetch_2_bytes_at _ (by exact (show off + 1 + 2 ≤ 65535 by omega))]
      simp [e1, e2, hh, instrBytes, instrFields, be2]
      all_goals omega
    case Writess d0 d1 =>
      have h65 : off + 4 ≤ 65535 := hoff
      have hx2 : d0 < 65536 ∧ d1 < 256 := by simpa [representableB] using hx
      have e0 : mem' off = 12 := by
        simpa [instrBytes, instrFields, Instruction.opcode, be2] using hrd 0 (by simp [instrBytes, instrFields, be2])
      have e1 : mem' (off + 1) = d0 / 256 % 256 := by
        simpa [instrBytes, instrFields, Instruction.opcode, be2] using hrd 1 (by simp [instrBytes, instrFields, be2])
      have e2 : mem' (off + 2) = d0 % 256 := by
        simpa [instrBytes, instrFields, Instruction.opcode, be2] using hrd 2 (by simp [instrBytes, instrFields, be2])
      have e3 : mem' (off + 3) = d1 := by
        simpa [instrBytes, instrFields, Instruction.opcode, be2] using hrd 3 (by simp [instrBytes, instrFields, be2])
      obtain ⟨hxa, hxb⟩ := hx2
      rw [Machine.fetch_instruction]
      rw [fetch_byte_at _ (by exact (show off + 1 ≤ 65535 by omega))]
      simp only [hh, e0]
      rw [fetch_2_bytes_at _ (by exact (show off + 1 + 2 ≤ 65535 by omega))]
      simp only [e1, e2]
      rw [fetch_byte_at _ (by exact (show off + 1 + 2 + 1 ≤ 65535 by omega))]
      simp [e3, hh, instrBytes, instrFields, be2]
      all_goals omega
    case Movass d =>
      have h65 : off + 2 ≤ 65535 := hoff
      have e0 : mem' off = 13 := by
        simpa [instrBytes, instrFields, Instruction.opcode, be2] using hrd 0 (by simp [instrBytes, instrFields, be2])
      have e1 : mem' (off + 1) = d := by
        simpa [instrBytes, instrFields, Instruction.opcode, be2] using hrd 1 (by simp [instrBytes, instrFields, be2])
      rw [Machine.fetch_instruction]
      rw [fetch_byte_at _ (by exact (show off + 1 ≤ 65535 by omega))]
      simp only [hh, e0]
      rw [fetch_byte_at _ (by exact (show off + 1 + 1 ≤ 65535 by omega))]
      simp [e1, hh, instrBytes, instrFields]
    case Setss d0 d1 =>
      have h65 : off + 4 ≤ 65535 := hoff
      have hx2 : d0 < 65536 ∧ d1 < 256 := by simpa [representableB] using hx
      have e0 : mem' off = 14 := by
        simpa [instrBytes, instrFields, Instruction.opcode, be2] using hrd 0 (by simp [instrBytes, instrFields, be2])
      have e1 : mem' (off + 1) = d0 / 256 % 256 := by
        simpa [instrBytes, instrFields, Instruction.opcode, be2] using hrd 1 (by simp [instrBytes, instrFields, be2])
      have e2 : mem' (off + 2) = d0 % 256 := by
        simpa [instrBytes, instrFields, Instruction.opcode, be2] using hrd 2 (by simp [instrBytes, instrFields, be2])
      have e3 : mem' (off + 3) = d1 := by
        simpa [instrBytes, instrFields, Instruction.opcode, be2] using hrd 3 (by simp [instrBytes, instrFields, be2])
      obtain ⟨hxa, hxb⟩ := hx2
      rw [Machine.fetch_instruction]
      rw [fetch_byte_at _ (by exact (show off + 1 ≤ 65535 by omega))]
      simp only [hh, e0]
      rw [fetch_2_bytes_at _ (by exact (show off + 1 + 2 ≤ 65535 by omega))]
      simp only [e1, e2]
      rw [fetch_byte_at _ (by exact (show off + 1 + 2 + 1 ≤ 65535 by omega))]
      simp [e3, hh, instrBytes, instrFields, be2]
      all_goals omega
    case Setiss d0 d1 =>
      have h65 : off + 3 ≤ 65535 := hoff
      have e0 : mem' off = 15 := by
        simpa [instrBytes, instrFields, Instruction.opcode, be2] using hrd 0 (by simp [instrBytes, instrFields, be2])
      have e1 : mem' (off + 1) = d0 := by
        simpa [instrBytes, instrFields, Instruction.opcode, be2] using hrd 1 (by simp [instrBytes, instrFields, be2])
      have e2 : mem' (off + 2) = d1 := by
        simpa [instrBytes, instrFields, Instruction.opcode, be2] using hrd 2 (by simp [instrBytes, instrFields, be2])
      rw [Machine.fetch_instruction]
      rw [fetch_byte_at _ (by exact (show off + 1 ≤ 65535 by omega))]
      simp only [hh, e0]
      rw [fetch_byte_at _ (by exact (show off + 1 + 1 ≤ 65535 by omega))]
      simp only [e1]
      rw [fetch_byte_at _ (by exact (show off + 1 + 1 + 1 ≤ 65535 by omega))]
      simp [e2, hh, instrBytes, instrFields]
    case Ldss d =>
      have h65 : off + 3 ≤ 65535 := hoff
      have hd : d < 65536 := by simpa [representableB] using hx
      have e0 : mem' off = 16 := by
        simpa [instrBytes, instrFields, Instruction.opcode, be2] using hrd 0 (by simp [instrBytes, instrFields, be2])
      have e1 : mem' (off + 1) = d / 256 % 256 := by
        simpa [instrBytes, instrFields, Instruction.opcode, be2] using hrd 1 (by simp [instrBytes, instrFields, be2])
      have e2 : mem' (off + 2) = d % 256 := by
        simpa [instrBytes, instrFields, Instruction.opcode, be2] using hrd 2 (by simp [instrBytes, instrFields, be2])
      rw [Machine.fetch_instruction]
      rw [fetch_byte_at _ (by exact (show off + 1 ≤ 65535 by omega))]
      simp only [hh, e0]
      rw [fetch_2_bytes_at _ (by exact (show off + 1 + 2 ≤ 65535 by omega))]
      simp [e1, e2, hh, instrBytes, instrFields, be2]
      all_goals omega
    case Pushss =>
      have h65 : off + 1 ≤ 65535 := hoff
      have e0 : mem' off = 17 := by
        simpa [instrBytes, instrFields, Instruction.opcode, be2] using hrd 0 (by simp [instrBytes, instrFields, be2])
      rw [Machine.fetch_instruction]
      rw [fetch_byte_at _ (by exact (show off + 1 ≤ 65535 by omega))]
      simp [hh, e0, instrBytes, instrFields]
    case Popss =>
      have h65 : off + 1 ≤ 65535 := hoff
      have e0 : mem' off = 18 := by
        simpa [instrBytes, instrFields, Instruction.opcode, be2] using hrd 0 (by simp [instrBytes, instrFields, be2])
      rw [Machine.fetch_instruction]
      rw [fetch_byte_at _ (by exact (show off + 1 ≤ 65535 by omega))]
      simp [hh, e0, instrBytes, instrFields]
    case Lenssa =>
      have h65 : off + 1 ≤ 65535 := hoff
      have e0 : mem' off = 19 := by
        simpa [instrBytes, instrFields, Instruction.opcode, be2] using hrd 0 (by simp [instrBytes, instrFields, be2])
      rw [Machine.fetch_instruction]
      rw [fetch_byte_at _ (by exact (show off + 1 ≤ 65535 by omega))]
      simp [hh, e0, instrBytes, instrFields]
    case Ldidp d =>
      have h65 : off + 3 ≤ 65535 := hoff
      have hd : d < 65536 := by simpa [representableB] using hx
      have e0 : mem' off = 20 := by
        simpa [instrBytes, instrFields, Instruction.opcode, be2] using hrd 0 (by simp [instrBytes, instrFields, be2])
      have e1 : mem' (off + 1) = d / 256 % 256 := by
        simpa [instrBytes, instrFields, Instruction.opcode, be2] using hrd 1 (by simp [instrBytes, instrFields, be2])
      have e2 : mem' (off + 2) = d % 256 := by
        simpa [instrBytes, instrFields, Instruction.opcode, be2] using hrd 2 (by simp [instrBytes, instrFields, be2])
      rw [Machine.fetch_instruction]
      rw [fetch_byte_at _ (by exact (show off + 1 ≤ 65535 by omega))]
      simp only [hh, e0]
      rw [fetch_2_bytes_at _ (by exact (show off + 1 + 2 ≤ 65535 by omega))]
      simp [e1, e2, hh, instrBytes, instrFields, be2]
      all_goals omega
    case ΩChoiceSet c =>
      have h65 : off + 2 ≤ 65535 := hoff
      have e0 : mem' off = 21 := by
        simpa [instrBytes, instrFields, Instruction.opcode, be2] using hrd 0 (by simp [instrBytes, instrFields, be2])
      have e1 : mem' (off + 1) = choiceToByte c := by
        simpa [instrBytes, instrFields, Instruction.opcode, be2] using hrd 1 (by simp [instrBytes, instrFields, be2])
      rw [Machine.fetch_instruction]
      rw [fetch_byte_at _ (by exact (show off + 1 ≤ 65535 by omega))]
      simp only [hh, e0]
      rw [fetch_byte_at _ (by exact (show off + 1 + 1 ≤ 65535 by omega))]
      simp [e1, choice_roundtrip, hh, instrBytes, instrFields]
    case ΩChoiceGetA =>
      have h65 : off + 1 ≤ 65535 := hoff
      have e0 : mem' off = 22 := by
        simpa [instrBytes, instrFields, Instruction.opcode, be2] using hrd 0 (by simp [instrBytes, instrFields, be2])
      rw [Machine.fetch_instruction]
      rw [fetch_byte_at _ (by exact (show off + 1 ≤ 65535 by omega))]
      simp [hh, e0, instrBytes, instrFields]
    case ΩGainAPolymorphicDesires =>
      have h65 : off + 1 ≤ 65535 := hoff
      have e0 : mem' off = 23 := by
        simpa [instrBytes, instrFields, Instruction.opcode, be2] using hrd 0 (by simp [instrBytes, instrFields, be2])
      rw [Machine.fetch_instruction]
      rw [fetch_byte_at _ (by exact (show off + 1 ≤ 65535 by omega))]
      simp [hh, e0, instrBytes, instrFields]
    case ΩLoseAPolymorphicDesires =>
      have h65 : off + 1 ≤ 65535 := hoff
      have e0 : mem' off = 24 := by
        simpa [instrBytes, instrFields, Instruction.opcode, be2] using hrd 0 (by simp [instrBytes, instrFields, be2])
      rw [Machine.fetch_instruction]
      rw [fetch_byte_at _ (by exact (show off + 1 ≤ 65535 by omega))]
      simp [hh, e0, instrBytes, instrFields]
    case ΩPushPolymorphicDesires =>
      have h65 : off + 1 ≤ 65535 := hoff
      have e0 : mem' off = 25 := by
        simpa [instrBytes, instrFields, Instruction.opcode, be2] using hrd 0 (by simp [instrBytes, instrFields, be2])
      rw [Machine.fetch_instruction]
      rw [fetch_byte_at _ (by exact (show off + 1 ≤ 65535 by omega))]
      simp [hh, e0, instrBytes, instrFields]
    case ΩTheEndIsNear =>
      have h65 : off + 1 ≤ 65535 := hoff
      have e0 : mem' off = 26 := by
        simpa [instrBytes, instrFields, Instruction.opcode, be2] using hrd 0 (by simp [instrBytes, instrFields, be2])
      rw [Machine.fetch_instruction]
      rw [fetch_byte_at _ (by exact (show off + 1 ≤ 65535 by omega))]
      simp [hh, e0, instrBytes, instrFields]
    case ΩSkipToTheChase =>
      have h65 : off + 1 ≤ 65535 := hoff
      have e0 : mem' off = 27 := by
        simpa [instrBytes, instrFields, Instruction.opcode, be2] using hrd 0 (by simp [instrBytes, instrFields, be2])
      rw [Machine.fetch_instruction]
      rw [fetch_byte_at _ (by exact (show off + 1 ≤ 65535 by omega))]
      simp [hh, e0, instrBytes, instrFields]
    case ΩSetSentience e =>
      have h65 : off + 2 ≤ 65535 := hoff
      have e0 : mem' off = 28 := by
        simpa [instrBytes, instrFields, Instruction.opcode, be2] using hrd 0 (by simp [instrBytes, instrFields, be2])
      have e1 : mem' (off + 1) = if e then 1 else 0 := by
        simpa [instrBytes, instrFields, Instruction.opcode, be2] using hrd 1 (by simp [instrBytes, instrFields, be2])
      rw [Machine.fetch_instruction]
      rw [fetch_byte_at _ (by exact (show off + 1 ≤ 65535 by omega))]
      simp only [hh, e0]
      rw [fetch_byte_at _ (by exact (show off + 1 + 1 ≤ 65535 by omega))]
      simp [e1, bool_byte_roundtrip, hh, instrBytes, instrFields]
    case ΩSetPaperclipProduction e =>
      have h65 : off + 2 ≤ 65535 := hoff
      have e0 : mem' off = 29 := by
        simpa [instrBytes, instrFields, Instruction.opcode, be2] using hrd 0 (by simp [instrBytes, instrFields, be2])
      have e1 : mem' (off + 1) = if e then 1 else 0 := by
        simpa [instrBytes, instrFields, Instruction.opcode, be2] using hrd 1 (by simp [instrBytes, instrFields, be2])
      rw [Machine.fetch_instruction]
      rw [fetch_byte_at _ (by exact (show off + 1 ≤ 65535 by omega))]
      simp only [hh, e0]
      rw [fetch_byte_at _ (by exact (show off + 1 + 1 ≤ 65535 by omega))]
      simp [e1, bool_byte_roundtrip, hh, instrBytes, instrFields]
    case AddBL =>
      have h65 : off + 1 ≤ 65535 := hoff
      have e0 : mem' off = 30 := by
        simpa [instrBytes, instrFields, Instruction.opcode, be2] using hrd 0 (by simp [instrBytes, instrFields, be2])
      rw [Machine.fetch_instruction]
      rw [fetch_byte_at _ (by exact (show off + 1 ≤ 65535 by omega))]
      simp [hh, e0, instrBytes, instrFields]
    case SubBL =>
      have h65 : off + 1 ≤ 65535 := hoff
      have e0 : mem' off = 31 := by
        simpa [instrBytes, instrFields, Instruction.opcode, be2] using hrd 0 (by simp [instrBytes, instrFields, be2])
      rw [Machine.fetch_instruction]
      rw [fetch_byte_at _ (by exact (show off + 1 ≤ 65535 by omega))]
      simp [hh, e0, instrBytes, instrFields]
    case MulBL =>
      have h65 : off + 1 ≤ 65535 := hoff
      have e0 : mem' off = 32 := by
        simpa [instrBytes, instrFields, Instruction.opcode, be2] using hrd 0 (by simp [instrBytes, instrFields, be2])
      rw [Machine.fetch_instruction]
      rw [fetch_byte_at _ (by exact (show off + 1 ≤ 65535 by omega))]
      simp [hh, e0, instrBytes, instrFields]
    case DivBL =>
      have h65 : off + 1 ≤ 65535 := hoff
      have e0 : mem' off = 33 := by
        simpa [instrBytes, instrFields, Instruction.opcode, be2] using hrd 0 (by simp [instrBytes, instrFields, be2])
      rw [Machine.fetch_instruction]
      rw [fetch_byte_at _ (by exact (show off + 1 ≤ 65535 by omega))]
      simp [hh, e0, instrBytes, instrFields]
    case ModBL =>
      have h65 : off + 1 ≤ 65535 := hoff
      have e0 : mem' off = 34 := by
        simpa [instrBytes, instrFields, Instruction.opcode, be2] using hrd 0 (by simp [instrBytes, instrFields, be2])
      rw [Machine.fetch_instruction]
      rw [fetch_byte_at _ (by exact (show off + 1 ≤ 65535 by omega))]
      simp [hh, e0, instrBytes, instrFields]
    case NotL =>
      have h65 : off + 1 ≤ 65535 := hoff
      have e0 : mem' off = 35 := by
        simpa [instrBytes, instrFields, Instruction.opcode, be2] using hrd 0 (by simp [instrBytes, instrFields, be2])
      rw [Machine.fetch_instruction]
      rw [fetch_byte_at _ (by exact (show off + 1 ≤ 65535 by omega))]
      simp [hh, e0, instrBytes, instrFields]
    case AndBL =>
      have h65 : off + 1 ≤ 65535 := hoff
      have e0 : mem' off = 36 := by
        simpa [instrBytes, instrFields, Instruction.opcode, be2] using hrd 0 (by simp [instrBytes, instrFields, be2])
      rw [Machine.fetch_instruction]
      rw [fetch_byte_at _ (by exact (show off + 1 ≤ 65535 by omega))]
      simp [hh, e0, instrBytes, instrFields]
    case OrBL =>
      have h65 : off + 1 ≤ 65535 := hoff
      have e0 : mem' off = 37 := by
        simpa [instrBytes, instrFields, Instruction.opcode, be2] using hrd 0 (by simp [instrBytes, instrFields, be2])
      rw [Machine.fetch_instruction]
      rw [fetch_byte_at _ (by exact (show off + 1 ≤ 65535 by omega))]
      simp [hh, e0, instrBytes, instrFields]
    case XorBL =>
      have h65 : off + 1 ≤ 65535 := hoff
      have e0 : mem' off = 38 := by
        simpa [instrBytes, instrFields, Instruction.opcode, be2] using hrd 0 (by simp [instrBytes, instrFields, be2])
      rw [Machine.fetch_instruction]
      rw [fetch_byte_at _ (by exact (show off + 1 ≤ 65535 by omega))]
      simp [hh, e0, instrBytes, instrFields]
    case CmpLB =>
      have h65 : off + 1 ≤ 65535 := hoff
      have e0 : mem' off = 39 := by
        simpa [instrBytes, instrFields, Instruction.opcode, be2] using hrd 0 (by simp [instrBytes, instrFields, be2])
      rw [Machine.fetch_instruction]
      rw [fetch_byte_at _ (by exact (show off + 1 ≤ 65535 by omega))]
      simp [hh, e0, instrBytes, instrFields]
    case TgFlag =>
      have h65 : off + 1 ≤ 65535 := hoff
      have e0 : mem' off = 40 := by
        simpa [instrBytes, instrFields, Instruction.opcode, be2] using hrd 0 (by simp [instrBytes, instrFields, be2])
      rw [Machine.fetch_instruction]
      rw [fetch_byte_at _ (by exact (show off + 1 ≤ 65535 by omega))]
      simp [hh, e0, instrBytes, instrFields]
    case ClFlag =>
      have h65 : off + 1 ≤ 65535 := hoff
      have e0 : mem' off = 41 := by
        simpa [instrBytes, instrFields, Instruction.opcode, be2] using hrd 0 (by simp [instrBytes, instrFields, be2])
      rw [Machine.fetch_instruction]
      rw [fetch_byte_at _ (by exact (show off + 1 ≤ 65535 by omega))]
      simp [hh, e0, instrBytes, instrFields]
    case AddF d =>
      have h65 : off + 3 ≤ 65535 := hoff
      have hd : d < 65536 := by simpa [representableB] using hx
      have e0 : mem' off = 42 := by
        simpa [instrBytes, instrFields, Instruction.opcode, be2] using hrd 0 (by simp [instrBytes, instrFields, be2])
      have e1 : mem' (off + 1) = d / 256 % 256 := by
        simpa [instrBytes, instrFields, Instruction.opcode, be2] using hrd 1 (by simp [instrBytes, instrFields, be2])
      have e2 : mem' (off + 2) = d % 256 := by
        simpa [instrBytes, instrFields, Instruction.opcode, be2] using hrd 2 (by simp [instrBytes, instrFields, be2])
      rw [Machine.fetch_instruction]
      rw [fetch_byte_at _ (by exact (show off + 1 ≤ 65535 by omega))]
      simp only [hh, e0]
      rw [fetch_2_bytes_at _ (by exact (show off + 1 + 2 ≤ 65535 by omega))]
      simp [e1, e2, hh, instrBytes, instrFields, be2]
      all_goals omega
    case SubF d =>
      have h65 : off + 3 ≤ 65535 := hoff
      have hd : d < 65536 := by simpa [representableB] using hx
      have e0 : mem' off = 43 := by
        simpa [instrBytes, instrFields, Instruction.opcode, be2] using hrd 0 (by simp [instrBytes, instrFields, be2])
      have e1 : mem' (off + 1) = d / 256 % 256 := by
        simpa [instrBytes, instrFields, Instruction.opcode, be2] using hrd 1 (by simp [instrBytes, instrFields, be2])
      have e2 : mem' (off + 2) = d % 256 := by
        simpa [instrBytes, instrFields, Instruction.opcode, be2] using hrd 2 (by simp [instrBytes, instrFields, be2])
      rw [Machine.fetch_instruction]
      rw [fetch_byte_at _ (by exact (show off + 1 ≤ 65535 by omega))]
      simp only [hh, e0]
      rw [fetch_2_bytes_at _ (by exact (show off + 1 + 2 ≤ 65535 by omega))]
      simp [e1, e2, hh, instrBytes, instrFields, be2]
      all_goals omega
    case MulF d =>
      have h65 : off + 3 ≤ 65535 := hoff
      have hd : d < 65536 := by simpa [representableB] using hx
      have e0 : mem' off = 44 := by
        simpa [instrBytes, instrFields, Instruction.opcode, be2] using hrd 0 (by simp [instrBytes, instrFields, be2])
      have e1 : mem' (off + 1) = d / 256 % 256 := by
        simpa [instrBytes, instrFields, Instruction.opcode, be2] using hrd 1 (by simp [instrBytes, instrFields, be2])
      have e2 : mem' (off + 2) = d % 256 := by
        simpa [instrBytes, instrFields, Instruction.opcode, be2] using hrd 2 (by simp [instrBytes, instrFields, be2])
      rw [Machine.fetch_instruction]
      rw [fetch_byte_at _ (by exact (show off + 1 ≤ 65535 by omega))]
      simp only [hh, e0]
      rw [fetch_2_bytes_at _ (by exact (show off + 1 + 2 ≤ 65535 by omega))]
      simp [e1, e2, hh, instrBytes, instrFields, be2]
      all_goals omega
    case DivF d =>
      have h65 : off + 3 ≤ 65535 := hoff
      have hd : d < 65536 := by simpa [representableB] using hx
      have e0 : mem' off = 45 := by
        simpa [instrBytes, instrFields, Instruction.opcode, be2] using hrd 0 (by simp [instrBytes, instrFields, be2])
      have e1 : mem' (off + 1) = d / 256 % 256 := by
        simpa [instrBytes, instrFields, Instruction.opcode, be2] using hrd 1 (by simp [instrBytes, instrFields, be2])
      have e2 : mem' (off + 2) = d % 256 := by
        simpa [instrBytes, instrFields, Instruction.opcode, be2] using hrd 2 (by simp [instrBytes, instrFields, be2])
      rw [Machine.fetch_instruction]
      rw [fetch_byte_at _ (by exact (show off + 1 ≤ 65535 by omega))]
      simp only [hh, e0]
      rw [fetch_2_bytes_at _ (by exact (show off + 1 + 2 ≤ 65535 by omega))]
      simp [e1, e2, hh, instrBytes, instrFields, be2]
      all_goals omega
    case ModF d =>
      have h65 : off + 3 ≤ 65535 := hoff
      have hd : d < 65536 := by simpa [representableB] using hx
      have e0 : mem' off = 46 := by
        simpa [instrBytes, instrFields, Instruction.opcode, be2] using hrd 0 (by simp [instrBytes, instrFields, be2])
      have e1 : mem' (off + 1) = d / 256 % 256 := by
        simpa [instrBytes, instrFields, Instruction.opcode, be2] using hrd 1 (by simp [instrBytes, instrFields, be2])
      have e2 : mem' (off + 2) = d % 256 := by
        simpa [instrBytes, instrFields, Instruction.opcode, be2] using hrd 2 (by simp [instrBytes, instrFields, be2])
      rw [Machine.fetch_instruction]
      rw [fetch_byte_at _ (by exact (show off + 1 ≤ 65535 by omega))]
      simp only [hh, e0]
      rw [fetch_2_bytes_at _ (by exact (show off + 1 + 2 ≤ 65535 by omega))]
      simp [e1, e2, hh, instrBytes, instrFields, be2]
      all_goals omega
    case StackAlloc d =>
      have h65 : off + 3 ≤ 65535 := hoff
      have hd : d < 65536 := by simpa [representableB] using hx
      have e0 : mem' off = 47 := by
        simpa [instrBytes, instrFields, Instruction.opcode, be2] using hrd 0 (by simp [instrBytes, instrFields, be2])
      have e1 : mem' (off + 1) = d / 256 % 256 := by
        simpa [instrBytes, instrFields, Instruction.opcode, be2] using hrd 1 (by simp [instrBytes, instrFields, be2])
      have e2 : mem' (off + 2) = d % 256 := by
        simpa [instrBytes, instrFields, Instruction.opcode, be2] using hrd 2 (by simp [instrBytes, instrFields, be2])
      rw [Machine.fetch_instruction]
      rw [fetch_byte_at _ (by exact (show off + 1 ≤ 65535 by omega))]
      simp only [hh, e0]
      rw [fetch_2_bytes_at _ (by exact (show off + 1 + 2 ≤ 65535 by omega))]
      simp [e1, e2, hh, instrBytes, instrFields, be2]
      all_goals omega
    case StackDealloc d =>
      have h65 : off + 3 ≤ 65535 := hoff
      have hd : d < 65536 := by simpa [representableB] using hx
      have e0 : mem' off = 48 := by
        simpa [instrBytes, instrFields, Instruction.opcode, be2] using hrd 0 (by simp [instrBytes, instrFields, be2])
      have e1 : mem' (off + 1) = d / 256 % 256 := by
        simpa [instrBytes, instrFields, Instruction.opcode, be2] using hrd 1 (by simp [instrBytes, instrFields, be2])
      have e2 : mem' (off + 2) = d % 256 := by
        simpa [instrBytes, instrFields, Instruction.opcode, be2] using hrd 2 (by simp [instrBytes, instrFields, be2])
      rw [Machine.fetch_instruction]
      rw [fetch_byte_at _ (by exact (show off + 1 ≤ 65535 by omega))]
      simp only [hh, e0]
      rw [fetch_2_bytes_at _ (by exact (show off + 1 + 2 ≤ 65535 by omega))]
      simp [e1, e2, hh, instrBytes, instrFields, be2]
      all_goals omega
    case Push d =>
      have h65 : off + 3 ≤ 65535 := hoff
      have hd : d < 65536 := by simpa [representableB] using hx
      have e0 : mem' off = 49 := by
        simpa [instrBytes, instrFields, Instruction.opcode, be2] using hrd 0 (by simp [instrBytes, instrFields, be2])
      have e1 : mem' (off + 1) = d / 256 % 256 := by
        simpa [instrBytes, instrFields, Instruction.opcode, be2] using hrd 1 (by simp [instrBytes, instrFields, be2])
      have e2 : mem' (off + 2) = d % 256 := by
        simpa [instrBytes, instrFields, Instruction.opcode, be2] using hrd 2 (by simp [instrBytes, instrFields, be2])
      rw [Machine.fetch_instruction]
      rw [fetch_byte_at _ (by exact (show off + 1 ≤ 65535 by omega))]
      simp only [hh, e0]
      rw [fetch_2_bytes_at _ (by exact (show off + 1 + 2 ≤ 65535 by omega))]
      simp [e1, e2, hh, instrBytes, instrFields, be2]
      all_goals omega
    case Pushi d =>
      have h65 : off + 2 ≤ 65535 := hoff
      have e0 : mem' off = 50 := by
        simpa [instrBytes, instrFields, Instruction.opcode, be2] using hrd 0 (by simp [instrBytes, instrFields, be2])
      have e1 : mem' (off + 1) = d := by
        simpa [instrBytes, instrFields, Instruction.opcode, be2] using hrd 1 (by simp [instrBytes, instrFields, be2])
      rw [Machine.fetch_instruction]
      rw [fetch_byte_at _ (by exact (show off + 1 ≤ 65535 by omega))]
      simp only [hh, e0]
      rw [fetch_byte_at _ (by exact (show off + 1 + 1 ≤ 65535 by omega))]
      simp [e1, hh, instrBytes, instrFields]
    case Pop d =>
      have h65 : off + 3 ≤ 65535 := hoff
      have hd : d < 65536 := by simpa [representableB] using hx
      have e0 : mem' off = 51 := by
        simpa [instrBytes, instrFields, Instruction.opcode, be2] using hrd 0 (by simp [instrBytes, instrFields, be2])
      have e1 : mem' (off + 1) = d / 256 % 256 := by
        simpa [instrBytes, instrFields, Instruction.opcode, be2] using hrd 1 (by simp [instrBytes, instrFields, be2])
      have e2 : mem' (off + 2) = d % 256 := by
        simpa [instrBytes, instrFields, Instruction.opcode, be2] using hrd 2 (by simp [instrBytes, instrFields, be2])
      rw [Machine.fetch_instruction]
      rw [fetch_byte_at _ (by exact (show off + 1 ≤ 65535 by omega))]
      simp only [hh, e0]
      rw [fetch_2_bytes_at _ (by exact (show off + 1 + 2 ≤ 65535 by omega))]
      simp [e1, e2, hh, instrBytes, instrFields, be2]
      all_goals omega
    case Popa =>
      have h65 : off + 1 ≤ 65535 := hoff
      have e0 : mem' off = 52 := by
        simpa [instrBytes, instrFields, Instruction.opcode, be2] using hrd 0 (by simp [instrBytes, instrFields, be2])
      rw [Machine.fetch_instruction]
      rw [fetch_byte_at _ (by exact (show off + 1 ≤ 65535 by omega))]
      simp [hh, e0, instrBytes, instrFields]
    case Pusha =>
      have h65 : off + 1 ≤ 65535 := hoff
      have e0 : mem' off = 53 := by
        simpa [instrBytes, instrFields, Instruction.opcode, be2] using hrd 0 (by simp [instrBytes, instrFields, be2])
      rw [Machine.fetch_instruction]
      rw [fetch_byte_at _ (by exact (show off + 1 ≤ 65535 by omega))]
      simp [hh, e0, instrBytes, instrFields]
    case Popb =>
      have h65 : off + 1 ≤ 65535 := hoff
      have e0 : mem' off = 54 := by
        simpa [instrBytes, instrFields, Instruction.opcode, be2] using hrd 0 (by simp [instrBytes, instrFields, be2])
      rw [Machine.fetch_instruction]
      rw [fetch_byte_at _ (by exact (show off + 1 ≤ 65535 by omega))]
      simp [hh, e0, instrBytes, instrFields]
    case Pushb =>
      have h65 : off + 1 ≤ 65535 := hoff
      have e0 : mem' off = 55 := by
        simpa [instrBytes, instrFields, Instruction.opcode, be2] using hrd 0 (by simp [instrBytes, instrFields, be2])
      rw [Machine.fetch_instruction]
      rw [fetch_byte_at _ (by exact (show off + 1 ≤ 65535 by omega))]
      simp [hh, e0, instrBytes, instrFields]
    case PopL =>
      have h65 : off + 1 ≤ 65535 := hoff
      have e0 : mem' off = 56 := by
        simpa [instrBytes, instrFields, Instruction.opcode, be2] using hrd 0 (by simp [instrBytes, instrFields, be2])
      rw [Machine.fetch_instruction]
      rw [fetch_byte_at _ (by exact (show off + 1 ≤ 65535 by omega))]
      simp [hh, e0, instrBytes, instrFields]
    case PushL =>
      have h65 : off + 1 ≤ 65535 := hoff
      have e0 : mem' off = 57 := by
        simpa [instrBytes, instrFields, Instruction.opcode, be2] using hrd 0 (by simp [instrBytes, instrFields, be2])
      rw [Machine.fetch_instruction]
      rw [fetch_byte_at _ (by exact (show off + 1 ≤ 65535 by omega))]
      simp [hh, e0, instrBytes, instrFields]
    case Popf =>
      have h65 : off + 1 ≤ 65535 := hoff
      have e0 : mem' off = 58 := by
        simpa [instrBytes, instrFields, Instruction.opcode, be2] using hrd 0 (by simp [instrBytes, instrFields, be2])
      rw [Machine.fetch_instruction]
      rw [fetch_byte_at _ (by exact (show off + 1 ≤ 65535 by omega))]
      simp [hh, e0, instrBytes, instrFields]
    case Pushf =>
      have h65 : off + 1 ≤ 65535 := hoff
      have e0 : mem' off = 59 := by
        simpa [instrBytes, instrFields, Instruction.opcode, be2] using hrd 0 (by simp [instrBytes, instrFields, be2])
      rw [Machine.fetch_instruction]
      rw [fetch_byte_at _ (by exact (show off + 1 ≤ 65535 by omega))]
      simp [hh, e0, instrBytes, instrFields]
    case Popch =>
      have h65 : off + 1 ≤ 65535 := hoff
      have e0 : mem' off = 60 := by
        simpa [instrBytes, instrFields, Instruction.opcode, be2] using hrd 0 (by simp [instrBytes, instrFields, be2])
      rw [Machine.fetch_instruction]
      rw [fetch_byte_at _ (by exact (show off + 1 ≤ 65535 by omega))]
      simp [hh, e0, instrBytes, instrFields]
    case Pushch =>
      have h65 : off + 1 ≤ 65535 := hoff
      have e0 : mem' off = 61 := by
        simpa [instrBytes, instrFields, Instruction.opcode, be2] using hrd 0 (by simp [instrBytes, instrFields, be2])
      rw [Machine.fetch_instruction]
      rw [fetch_byte_at _ (by exact (show off + 1 ≤ 65535 by omega))]
      simp [hh, e0, instrBytes, instrFields]
    case Popnum =>
      have h65 : off + 1 ≤ 65535 := hoff
      have e0 : mem' off = 62 := by
        simpa [instrBytes, instrFields, Instruction.opcode, be2] using hrd 0 (by simp [instrBytes, instrFields, be2])
      rw [Machine.fetch_instruction]
      rw [fetch_byte_at _ (by exact (show off + 1 ≤ 65535 by omega))]
      simp [hh, e0, instrBytes, instrFields]
    case Pushnum =>
      have h65 : off + 1 ≤ 65535 := hoff
      have e0 : mem' off = 63 := by
        simpa [instrBytes, instrFields, Instruction.opcode, be2] using hrd 0 (by simp [instrBytes, instrFields, be2])
      rw [Machine.fetch_instruction]
      rw [fetch_byte_at _ (by exact (show off + 1 ≤ 65535 by omega))]
      simp [hh, e0, instrBytes, instrFields]
    case Popep =>
      have h65 : off + 1 ≤ 65535 := hoff
      have e0 : mem' off = 64 := by
        simpa [instrBytes, instrFields, Instruction.opcode, be2] using hrd 0 (by simp [instrBytes, instrFields, be2])
      rw [Machine.fetch_instruction]
      rw [fetch_byte_at _ (by exact (show off + 1 ≤ 65535 by omega))]
      simp [hh, e0, instrBytes, instrFields]
    case Zpopep =>
      have h65 : off + 1 ≤ 65535 := hoff
      have e0 : mem' off = 65 := by
        simpa [instrBytes, instrFields, Instruction.opcode, be2] using hrd 0 (by simp [instrBytes, instrFields, be2])
      rw [Machine.fetch_instruction]
      rw [fetch_byte_at _ (by exact (show off + 1 ≤ 65535 by omega))]
      simp [hh, e0, instrBytes, instrFields]
    case Ppopep =>
      have h65 : off + 1 ≤ 65535 := hoff
      have e0 : mem' off = 66 := by
        simpa [instrBytes, instrFields, Instruction.opcode, be2] using hrd 0 (by simp [instrBytes, instrFields, be2])
      rw [Machine.fetch_instruction]
      rw [fetch_byte_at _ (by exact (show off + 1 ≤ 65535 by omega))]
      simp [hh, e0, instrBytes, instrFields]
    case Npopep =>
      have h65 : off + 1 ≤ 65535 := hoff
      have e0 : mem' off = 67 := by
        simpa [instrBytes, instrFields, Instruction.opcode, be2] using hrd 0 (by simp [instrBytes, instrFields, be2])
      rw [Machine.fetch_instruction]
      rw [fetch_byte_at _ (by exact (show off + 1 ≤ 65535 by omega))]
      simp [hh, e0, instrBytes, instrFields]
    case Fpopep =>
      have h65 : off + 1 ≤ 65535 := hoff
      have e0 : mem' off = 68 := by
        simpa [instrBytes, instrFields, Instruction.opcode, be2] using hrd 0 (by simp [instrBytes, instrFields, be2])
      rw [Machine.fetch_instruction]
      rw [fetch_byte_at _ (by exact (show off + 1 ≤ 65535 by omega))]
      simp [hh, e0, instrBytes, instrFields]
    case Zapopep =>
      have h65 : off + 1 ≤ 65535 := hoff
      have e0 : mem' off = 69 := by
        simpa [instrBytes, instrFields, Instruction.opcode, be2] using hrd 0 (by simp [instrBytes, instrFields, be2])
      rw [Machine.fetch_instruction]
      rw [fetch_byte_at _ (by exact (show off + 1 ≤ 65535 by omega))]
      simp [hh, e0, instrBytes, instrFields]
    case Dpopep =>
      have h65 : off + 1 ≤ 65535 := hoff
      have e0 : mem' off = 70 := by
        simpa [instrBytes, instrFields, Instruction.opcode, be2] using hrd 0 (by simp [instrBytes, instrFields, be2])
      rw [Machine.fetch_instruction]
      rw [fetch_byte_at _ (by exact (show off + 1 ≤ 65535 by omega))]
      simp [hh, e0, instrBytes, instrFields]
    case GetChar =>
      have h65 : off + 1 ≤ 65535 := hoff
      have e0 : mem' off = 71 := by
        simpa [instrBytes, instrFields, Instruction.opcode, be2] using hrd 0 (by simp [instrBytes, instrFields, be2])
      rw [Machine.fetch_instruction]
      rw [fetch_byte_at _ (by exact (show off + 1 ≤ 65535 by omega))]
      simp [hh, e0, instrBytes, instrFields]
    case GetLine =>
      have h65 : off + 1 ≤ 65535 := hoff
      have e0 : mem' off = 72 := by
        simpa [instrBytes, instrFields, Instruction.opcode, be2] using hrd 0 (by simp [instrBytes, instrFields, be2])
      rw [Machine.fetch_instruction]
      rw [fetch_byte_at _ (by exact (show off + 1 ≤ 65535 by omega))]
      simp [hh, e0, instrBytes, instrFields]
    case WriteChar =>
      have h65 : off + 1 ≤ 65535 := hoff
      have e0 : mem' off = 73 := by
        simpa [instrBytes, instrFields, Instruction.opcode, be2] using hrd 0 (by simp [instrBytes, instrFields, be2])
      rw [Machine.fetch_instruction]
      rw [fetch_byte_at _ (by exact (show off + 1 ≤ 65535 by omega))]
      simp [hh, e0, instrBytes, instrFields]
    case WriteLiness =>
      have h65 : off + 1 ≤ 65535 := hoff
      have e0 : mem' off = 74 := by
        simpa [instrBytes, instrFields, Instruction.opcode, be2] using hrd 0 (by simp [instrBytes, instrFields, be2])
      rw [Machine.fetch_instruction]
      rw [fetch_byte_at _ (by exact (show off + 1 ≤ 65535 by omega))]
      simp [hh, e0, instrBytes, instrFields]
    case WriteLine d =>
      have h65 : off + 3 ≤ 65535 := hoff
      have hd : d < 65536 := by simpa [representableB] using hx
      have e0 : mem' off = 75 := by
        simpa [instrBytes, instrFields, Instruction.opcode, be2] using hrd 0 (by simp [instrBytes, instrFields, be2])
      have e1 : mem' (off + 1) = d / 256 % 256 := by
        simpa [instrBytes, instrFields, Instruction.opcode, be2] using hrd 1 (by simp [instrBytes, instrFields, be2])
      have e2 : mem' (off + 2) = d % 256 := by
        simpa [instrBytes, instrFields, Instruction.opcode, be2] using hrd 2 (by simp [instrBytes, instrFields, be2])
      rw [Machine.fetch_instruction]
      rw [fetch_byte_at _ (by exact (show off + 1 ≤ 65535 by omega))]
      simp only [hh, e0]
      rw [fetch_2_bytes_at _ (by exact (show off + 1 + 2 ≤ 65535 by omega))]
      simp [e1, e2, hh, instrBytes, instrFields, be2]
      all_goals omega
    case ToggleDebug =>
      have h65 : off + 1 ≤ 65535 := hoff
      have e0 : mem' off = 76 := by
        simpa [instrBytes, instrFields, Instruction.opcode, be2] using hrd 0 (by simp [instrBytes, instrFields, be2])
      rw [Machine.fetch_instruction]
      rw [fetch_byte_at _ (by exact (show off + 1 ≤ 65535 by omega))]
      simp [hh, e0, instrBytes, instrFields]
    case DebugMachineState =>
      have h65 : off + 1 ≤ 65535 := hoff
      have e0 : mem' off = 77 := by
        simpa [instrBytes, instrFields, Instruction.opcode, be2] using hrd 0 (by simp [instrBytes, instrFields, be2])
      rw [Machine.fetch_instruction]
      rw [fetch_byte_at _ (by exact (show off + 1 ≤ 65535 by omega))]
      simp [hh, e0, instrBytes, instrFields]
    case DebugMachineStateCompact =>
      have h65 : off + 1 ≤ 65535 := hoff
      have e0 : mem' off = 78 := by
        simpa [instrBytes, instrFields, Instruction.opcode, be2] using hrd 0 (by simp [instrBytes, instrFields, be2])
      rw [Machine.fetch_instruction]
      rw [fetch_byte_at _ (by exact (show off + 1 ≤ 65535 by omega))]
      simp [hh, e0, instrBytes, instrFields]
    case DebugMemoryRegion d0 d1 =>
      have h65 : off + 5 ≤ 65535 := hoff
      have hx2 : d0 < 65536 ∧ d1 < 65536 := by simpa [representableB] using hx
      have e0 : mem' off = 79 := by
        simpa [instrBytes, instrFields, Instruction.opcode, be2] using hrd 0 (by simp [instrBytes, instrFields, be2])
      have e1 : mem' (off + 1) = d0 / 256 % 256 := by
        simpa [instrBytes, instrFields, Instruction.opcode, be2] using hrd 1 (by simp [instrBytes, instrFields, be2])
      have e2 : mem' (off + 2) = d0 % 256 := by
        simpa [instrBytes, instrFields, Instruction.opcode, be2] using hrd 2 (by simp [instrBytes, instrFields, be2])
      have e3 : mem' (off + 3) = d1 / 256 % 256 := by
        simpa [instrBytes, instrFields, Instruction.opcode, be2] using hrd 3 (by simp [instrBytes, instrFields, be2])
      have e4 : mem' (off + 4) = d1 % 256 := by
        simpa [instrBytes, instrFields, Instruction.opcode, be2] using hrd 4 (by simp [instrBytes, instrFields, be2])
      obtain ⟨hxa, hxb⟩ := hx2
      rw [Machine.fetch_instruction]
      rw [fetch_byte_at _ (by exact (show off + 1 ≤ 65535 by omega))]
      simp only [hh, e0]
      rw [fetch_2_bytes_at _ (by exact (show off + 1 + 2 ≤ 65535 by omega))]
      simp only [e1, e2]
      rw [fetch_2_bytes_at _ (by exact (show off + 1 + 2 + 2 ≤ 65535 by omega))]
      simp [e3, e4, hh, instrBytes, instrFields, be2]
      all_goals omega
    case DebugStackRegion d0 d1 =>
      have h65 : off + 5 ≤ 65535 := hoff
      have hx2 : d0 < 65536 ∧ d1 < 65536 := by simpa [representableB] using hx
      have e0 : mem' off = 80 := by
        simpa [instrBytes, instrFields, Instruction.opcode, be2] using hrd 0 (by simp [instrBytes, instrFields, be2])
      have e1 : mem' (off + 1) = d0 / 256 % 256 := by
        simpa [instrBytes, instrFields, Instruction.opcode, be2] using hrd 1 (by simp [instrBytes, instrFields, be2])
      have e2 : mem' (off + 2) = d0 % 256 := by
        simpa [instrBytes, instrFields, Instruction.opcode, be2] using hrd 2 (by simp [instrBytes, instrFields, be2])
      have e3 : mem' (off + 3) = d1 / 256 % 256 := by
        simpa [instrBytes, instrFields, Instruction.opcode, be2] using hrd 3 (by simp [instrBytes, instrFields, be2])
      have e4 : mem' (off + 4) = d1 % 256 := by
        simpa [instrBytes, instrFields, Instruction.opcode, be2] using hrd 4 (by simp [instrBytes, instrFields, be2])
      obtain ⟨hxa, hxb⟩ := hx2
      rw [Machine.fetch_instruction]
      rw [fetch_byte_at _ (by exact (show off + 1 ≤ 65535 by omega))]
      simp only [hh, e0]
      rw [fetch_2_bytes_at _ (by exact (show off + 1 + 2 ≤ 65535 by omega))]
      simp only [e1, e2]
      rw [fetch_2_bytes_at _ (by exact (show off + 1 + 2 + 2 ≤ 65535 by omega))]
      simp [e3, e4, hh, instrBytes, instrFields, be2]
      all_goals omega
    case ShowChoice =>
      have h65 : off + 1 ≤ 65535 := hoff
      have e0 : mem' off = 81 := by
        simpa [instrBytes, instrFields, Instruction.opcode, be2] using hrd 0 (by simp [instrBytes, instrFields, be2])
      rw [Machine.fetch_instruction]
      rw [fetch_byte_at _ (by exact (show off + 1 ≤ 65535 by omega))]
      simp [hh, e0, instrBytes, instrFields]


/-- C1 counterexample: the claim quantifies over EVERY starting offset,
but memory is only 65535 bytes, so encoding even the one-byte `Nop` at
offset 65535 panics (index out of range) instead of wrapping — there is
no round trip at that offset. -/
theorem load_at_offset_65535_panics :
    Machine.default.load_instruction .Nop 65535 = .error .indexOutOfRange ∧
    representableB .Nop = true ∧ Machine.default.halted = false :=
  ⟨rfl, rfl, rfl⟩

/-- Witness for C1's amended theorem: `Ldar 0x1234` encoded at offset 10
on the default machine. -/
theorem encode_decode_roundtrip_witness :
    representableB (.Ldar 4660) = true ∧
    10 + (instrBytes (.Ldar 4660)).length ≤ MEMLEN ∧
    Machine.default.halted = false ∧
    (∃ mem',
      Machine.default.load_instruction (.Ldar 4660) 10 =
        .ok ({ Machine.default with memory := mem' },
             10 + (instrBytes (.Ldar 4660)).length) ∧
      Machine.fetch_instruction
          { Machine.default with memory := mem', reg_ep := 10 } =
        .ok (some (.Ldar 4660),
             { Machine.default with memory := mem', reg_ep := (10 + (instrBytes (.Ldar 4660)).length) })) :=
  ⟨rfl, by decide, rfl,
   encode_decode_roundtrip Machine.default (.Ldar 4660) 10 rfl (by decide) rfl⟩

end EsotericVm
